import Mathlib

/-!
# Signal registration and hardware-trap classification of the BSD/ppc port

A shallow embedding of

* `hotspot/src/os/bsd/vm/jvm_bsd.cpp` (`JVM_RegisterSignal`, `JVM_RaiseSignal`,
  `JVM_FindSignal`, `signal_name`),
* `hotspot/src/os_cpu/bsd_ppc/vm/os_bsd_ppc.cpp` (`JVM_handle_bsd_signal`,
  `os::print_context`),
* `hotspot/src/os/bsd/vm/vmError_bsd.cpp` (`set_debugger`, `show_message_box`,
  `save_signal`, `crash_handler`, `VMError::reset_signal_handlers`),
* `jdk/src/solaris/bin/java_md_solinux.h` (`gethrtime`, `CounterGet`, `Counter2Micros`),

followed by the properties established about them.

Conventions.  A `void*` handler value is an `Int` (`(void*)-1` is `-1`).  An
`address` inside the trap handler is a `Nat` below `2^64`, and pointer
arithmetic wraps modulo `2^64`.  Calls to collaborators whose code is not part
of the embedded files are recorded, in order, in a trace.
-/

namespace Hotspot

/-! ## Signal numbers -/

/-- Signal numbers named by the code.  `<signal.h>` and `jvm_bsd.h` are not
among the embedded files, so the numbers are parameters. -/
structure Signals where
  SIGILL : Int
  SIGTRAP : Int
  SIGFPE : Int
  SIGBUS : Int
  SIGSEGV : Int
  SIGPIPE : Int
  INTERRUPT_SIGNAL : Int
  BREAK_SIGNAL : Int
  SHUTDOWN1_SIGNAL : Int
  SHUTDOWN2_SIGNAL : Int
  SHUTDOWN3_SIGNAL : Int

/-- The named signal numbers are pairwise different (for the `case` labels of
one `switch` the C++ compiler insists on it). -/
def Signals.Distinct (S : Signals) : Prop :=
  [S.SIGILL, S.SIGTRAP, S.SIGFPE, S.SIGBUS, S.SIGSEGV, S.SIGPIPE, S.INTERRUPT_SIGNAL,
   S.BREAK_SIGNAL, S.SHUTDOWN1_SIGNAL, S.SHUTDOWN2_SIGNAL, S.SHUTDOWN3_SIGNAL].Nodup

instance (S : Signals) : Decidable S.Distinct := by
  unfold Signals.Distinct
  infer_instance

/-- The numbering of FreeBSD: SIGILL 4, SIGTRAP 5, SIGFPE 8, SIGBUS 10, SIGSEGV 11,
SIGPIPE 13, and SIGUSR1 30, SIGQUIT 3, SIGHUP 1, SIGINT 2, SIGTERM 15 for the
interrupt, break and shutdown signals. -/
def bsdSignals : Signals :=
  { SIGILL := 4, SIGTRAP := 5, SIGFPE := 8, SIGBUS := 10, SIGSEGV := 11, SIGPIPE := 13,
    INTERRUPT_SIGNAL := 30, BREAK_SIGNAL := 3,
    SHUTDOWN1_SIGNAL := 1, SHUTDOWN2_SIGNAL := 2, SHUTDOWN3_SIGNAL := 15 }

/-! ## `jvm_bsd.cpp`: the registration surface -/

/-- A call that `jvm_bsd.cpp` makes into the `os` layer. -/
inductive OsCall
  | signal (sig : Int) (handler : Int)
  | signal_raise (sig : Int)
  deriving DecidableEq, Repr

/-- The process-wide signal dispositions, and the calls made so far. -/
structure OsState where
  /-- the handler installed for each signal -/
  handler : Int → Int
  /-- calls into the `os` layer, oldest first -/
  calls : List OsCall

/-- The disposition "ignore" (`SIG_IGN`), the value `JVM_RegisterSignal`
reports for an ignored shutdown signal. -/
def SIG_IGN : Int := 1

/-- Modelled from the spec: `os::signal` (os_bsd.cpp) is missing from the
embedded files.  There is exactly one disposition for each signal kind:
the call installs the new handler and returns the previous one. -/
def os_signal (s : OsState) (sig handler : Int) : Int × OsState :=
  (s.handler sig,
   { handler := fun x => if x = sig then handler else s.handler x,
     calls := s.calls ++ [OsCall.signal sig handler] })

/-- Modelled from the spec: `os::Bsd::is_sig_ignored` (os_bsd.cpp) is missing
from the embedded files.  The host has marked the signal ignored. -/
def is_sig_ignored (s : OsState) (sig : Int) : Bool :=
  s.handler sig == SIG_IGN

/-- Modelled from the spec: `os::signal_raise` (os_bsd.cpp) is missing from the
embedded files.  The signal is raised; the dispositions stay as they are. -/
def os_signal_raise (s : OsState) (sig : Int) : OsState :=
  { s with calls := s.calls ++ [OsCall.signal_raise sig] }

/-- The function `JVM_RegisterSignal(sig, handler)`.  `user_handler` is the value of
`os::user_handler()`. -/
def JVM_RegisterSignal (S : Signals) (user_handler : Int) (ReduceSignalUsage : Bool)
    (sig handler : Int) (s : OsState) : Int × OsState :=
  let newHandler := if handler = 2 then user_handler else handler
  let install : Int × OsState :=
    let r := os_signal s sig newHandler
    if r.1 = user_handler then (2, r.2) else (r.1, r.2)
  -- switch (sig)
  if sig = S.INTERRUPT_SIGNAL ∨ sig = S.SIGFPE ∨ sig = S.SIGILL ∨ sig = S.SIGBUS
      ∨ sig = S.SIGSEGV ∨ sig = S.BREAK_SIGNAL then
    (-1, s)
  else if sig = S.SHUTDOWN1_SIGNAL ∨ sig = S.SHUTDOWN2_SIGNAL ∨ sig = S.SHUTDOWN3_SIGNAL then
    if ReduceSignalUsage then (-1, s)
    else if is_sig_ignored s sig then (1, s)
    else install
  else install

def JNI_FALSE : Int := 0
def JNI_TRUE : Int := 1

/-- The function `JVM_RaiseSignal(sig)`. -/
def JVM_RaiseSignal (S : Signals) (ReduceSignalUsage : Bool) (sig : Int) (s : OsState) :
    Int × OsState :=
  if ReduceSignalUsage then
    if sig = S.SHUTDOWN1_SIGNAL ∨ sig = S.SHUTDOWN2_SIGNAL ∨
        sig = S.SHUTDOWN3_SIGNAL ∨ sig = S.BREAK_SIGNAL then
      (JNI_FALSE, s)
    else (JNI_TRUE, os_signal_raise s sig)
  else if (sig = S.SHUTDOWN1_SIGNAL ∨ sig = S.SHUTDOWN2_SIGNAL ∨
        sig = S.SHUTDOWN3_SIGNAL) ∧ is_sig_ignored s sig = true then
    (JNI_FALSE, s)
  else (JNI_TRUE, os_signal_raise s sig)

/-- Every signal at its default disposition (`SIG_DFL`, 0), no call made. -/
def OsState.initial : OsState := { handler := fun _ => 0, calls := [] }

/-! ## `os_bsd_ppc.cpp`: the trap handler -/

/-- Width of a machine word of the port: an `address` is a number below `2^64`. -/
def WORD : Nat := 2 ^ 64

/-- The record `siginfo_t`, as far as the handler reads it. -/
structure siginfo_t where
  si_addr : Nat
  si_code : Int

/-- The machine context `uc->uc_mcontext`. -/
structure ucontext_t where
  mc_srr0 : Nat
  mc_lr : Nat
  mc_ctr : Nat
  mc_gpr : Fin 32 → Nat

/-- The accessor `os::Bsd::ucontext_get_pc`. -/
def ucontext_get_pc (uc : ucontext_t) : Nat := uc.mc_srr0

/-- The accessor `os::Bsd::ucontext_get_sp`: general register 1. -/
def ucontext_get_sp (uc : ucontext_t) : Nat := uc.mc_gpr 1

/-- Modelled from the spec: the enumeration `JavaThreadState` is missing from the
embedded files.  `execution_state` is one of in_managed_code, in_runtime, in_native. -/
inductive JavaThreadState
  | _thread_in_Java
  | _thread_in_vm
  | _thread_in_native
  deriving DecidableEq, Repr

/-- Modelled from the spec: the guard state of a thread is missing from the
embedded files.  `guard_zone_state` is one of normal, yellow_disabled, red_disabled. -/
inductive GuardState
  | normal
  | yellow_disabled
  | red_disabled
  deriving DecidableEq, Repr

/-- The thread `ThreadLocalStorage::get_thread_slow()` answers, with what the handler
reads and writes of it.  The zone membership tests are queries of the thread. -/
structure Thread where
  is_Java_thread : Bool
  is_VM_thread : Bool
  stack_base : Nat
  stack_size : Nat
  guard_zone_state : GuardState
  thread_state : JavaThreadState
  doing_unsafe_access : Bool
  pending_unsafe_access_error : Bool
  saved_exception_pc : Nat
  in_stack_yellow_zone : Nat → Bool
  in_stack_red_zone : Nat → Bool

/-- Modelled from the spec: `JavaThread::disable_stack_yellow_zone` (thread.cpp) is
missing from the embedded files.  normal goes to yellow_disabled; the state never
moves back. -/
def Thread.disable_stack_yellow_zone (t : Thread) : Thread :=
  match t.guard_zone_state with
  | GuardState.normal => { t with guard_zone_state := GuardState.yellow_disabled }
  | GuardState.yellow_disabled => t
  | GuardState.red_disabled => t

/-- Modelled from the spec: `JavaThread::disable_stack_red_zone` (thread.cpp) is
missing from the embedded files.  The state becomes red_disabled. -/
def Thread.disable_stack_red_zone (t : Thread) : Thread :=
  { t with guard_zone_state := GuardState.red_disabled }

/-- Modelled from the spec: `JavaThread::set_pending_unsafe_access_error` (thread.hpp) is
missing from the embedded files.  It marks pending_unsafe_access_error = true. -/
def Thread.set_pending_unsafe_access_error (t : Thread) : Thread :=
  { t with pending_unsafe_access_error := true }

/-- Modelled from the spec: `JavaThread::set_saved_exception_pc` (thread.hpp) is missing
from the embedded files.  It stores the pc in the field saved_exception_pc. -/
def Thread.set_saved_exception_pc (t : Thread) (pc : Nat) : Thread :=
  { t with saved_exception_pc := pc }

/-- The kinds of `SharedRuntime::ImplicitExceptionKind` the handler asks for. -/
inductive ImplicitExceptionKind
  | IMPLICIT_NULL
  | IMPLICIT_DIVIDE_BY_ZERO
  | STACK_OVERFLOW
  deriving DecidableEq, Repr

/-- A code blob as `CodeCache::find_blob_unsafe` reports it. -/
structure CodeBlob where
  is_nmethod : Bool
  has_unsafe_access : Bool
  deriving DecidableEq, Repr

/-- What the handler does to its collaborators, oldest first.  A print is recorded by
its format text; the pc that `INTPTR_FORMAT` would print is written `%p`. -/
inductive Event
  | chained_handler (sig : Int)
  | warning (msg : String)
  | tty (msg : String)
  | continuation_for_implicit_exception (pc : Nat) (kind : ImplicitExceptionKind)
  | patch_instruction (pc : Nat)
  | block_on_serialize_page_trap
  | sigprocmask_unblock (sig : Int)
  | VMError_report_and_die (sig : Int) (pc : Nat)
  deriving DecidableEq, Repr

/-- Build configuration, VM flags and the answers of the collaborators the handler
queries (code cache, stub routines, shared runtime, kernel). -/
structure Env where
  sigs : Signals
  /-- compiled with `__FreeBSD__` -/
  FreeBSD : Bool
  /-- compiled with `COMPILER2` -/
  COMPILER2 : Bool
  signal_handlers_are_installed : Bool
  chained_handler : Int → Option siginfo_t → Option ucontext_t → Bool
  PrintMiscellaneous : Bool
  WizardMode : Bool
  Verbose : Bool
  TraceTraps : Bool
  is_safefetch_fault : Nat → Bool
  continuation_for_safefetch_fault : Nat → Nat
  /-- return value of `procctl(P_PID, getpid(), PROC_STACKGAP_STATUS, &status)` -/
  procctl_ret : Int
  procctl_status : Nat
  /-- return value of `sysctlbyname("security.bsd.stack_guard_page", ...)` -/
  sysctlbyname_ret : Int
  guard_pages : Int
  vm_page_size : Int
  continuation_for_implicit_exception : Thread → Nat → ImplicitExceptionKind → Nat
  TrapBasedNotEntrantChecks : Bool
  TrapBasedICMissChecks : Bool
  TrapBasedNullChecks : Bool
  TrapBasedRangeChecks : Bool
  ImplicitNullChecks : Bool
  is_sigtrap_zombie_not_entrant : Nat → Bool
  is_sigill_zombie_not_entrant : Nat → Bool
  is_sigtrap_ic_miss_check : Nat → Bool
  is_sigtrap_null_check : Nat → Bool
  is_sigtrap_range_check : Nat → Bool
  get_handle_wrong_method_stub : Nat
  get_poll_stub : Nat → Nat
  get_ic_miss_stub : Nat
  is_poll_address : Nat → Bool
  CodeCache_contains : Nat → Bool
  needs_explicit_null_check : Nat → Bool
  find_blob_unsafe : Nat → Option CodeBlob
  is_determine_features_test_running : Bool
  is_memory_serialize_page : Thread → Nat → Bool

/-- What a call of the handler can change: the machine context it was handed, the
current thread, the blocked-signal set, and the trace of calls. -/
structure State where
  uc : Option ucontext_t
  thread : Option Thread
  blocked : Int → Bool
  trace : List Event

/-- How a call of the handler ends. -/
inductive Exit
  /-- the handler returned this value -/
  | returned (r : Int)
  /-- `VMError::report_and_die` was entered; it does not return -/
  | report_and_die
  /-- a member of a null `CodeBlob*` was used -/
  | null_dereference
  deriving DecidableEq, Repr

/-- Where control goes at the end of a block of the handler. -/
inductive Flow
  /-- `goto run_stub` with `stub` as set so far -/
  | run_stub (stub : Nat)
  /-- falling out of the block, with `stub` as set so far -/
  | next (stub : Nat)
  | report_and_die
  | ret (r : Int)
  | null_dereference

def State.log (s : State) (e : Event) : State := { s with trace := s.trace ++ [e] }

/-- Pointer minus integer, on 64 bits. -/
def ptr_sub (a : Nat) (d : Int) : Nat := (((a : Int) - d) % (WORD : Int)).toNat

/-- Pointer plus 4, on 64 bits. -/
def ptr_add4 (a : Nat) : Nat := (a + 4) % WORD

def PROC_STACKGAP_DISABLE : Nat := 0x0002

/-- The `__FreeBSD__` block of the handler: the fault address, rounded down by the
kernel guard pages when the stack gap is not disabled. -/
def stack_guard_compensation (E : Env) (addr : Nat) : Nat :=
  if E.FreeBSD then
    if E.procctl_ret = -1 ∨ (E.procctl_status &&& PROC_STACKGAP_DISABLE) = 0 then
      if E.sysctlbyname_ret = 0 ∧ E.guard_pages > 0 then
        ptr_sub addr (E.guard_pages * E.vm_page_size)
      else addr
    else addr
  else addr

/-- The test `addr < stack_base() && addr >= stack_base() - stack_size()`. -/
def in_stack_bounds (t : Thread) (addr : Nat) : Bool :=
  decide (addr < t.stack_base) && decide (addr ≥ ptr_sub t.stack_base t.stack_size)

/-- The variable `thread`: the current thread, when the handlers are installed and it
is a Java thread; null otherwise. -/
def java_thread (E : Env) (t : Option Thread) : Option Thread :=
  if E.signal_handlers_are_installed then
    match t with
    | some t => if t.is_Java_thread then some t else none
    | none => none
  else none

/-- The variable `vmthread` is not null. -/
def vm_thread (E : Env) (t : Option Thread) : Bool :=
  if E.signal_handlers_are_installed then
    match t with
    | some t => !t.is_Java_thread && t.is_VM_thread
    | none => false
  else false

/-- A line printed under `TraceTraps`. -/
def State.trace_trap (s : State) (E : Env) (msg : String) : State :=
  if E.TraceTraps then s.log (Event.tty msg) else s

/-- Label `report_and_die`: unblock `sig`, then `VMError::report_and_die`. -/
def report_and_die (sig : Int) (pc : Nat) (s : State) : Exit × State :=
  (Exit.report_and_die,
   { s with
     blocked := fun x => if x = sig then false else s.blocked x,
     trace := s.trace ++ [Event.sigprocmask_unblock sig, Event.VMError_report_and_die sig pc] })

/-- Label `run_chained_handler`. -/
def run_chained_handler (E : Env) (sig : Int) (info : Option siginfo_t)
    (abort_if_unrecognized : Int) (pc : Nat) (s : State) : Exit × State :=
  let s1 := s.log (Event.chained_handler sig)
  if E.chained_handler sig info s.uc then (Exit.returned 1, s1)
  else if abort_if_unrecognized = 0 then (Exit.returned 0, s1)
  else report_and_die sig pc s1

/-- Label `run_stub`; `uc` is not null wherever the label is reached. -/
def run_stub (E : Env) (sig : Int) (info : Option siginfo_t) (abort_if_unrecognized : Int)
    (pc : Nat) (uc : ucontext_t) (stub : Nat) (s : State) : Exit × State :=
  if stub ≠ 0 then
    (Exit.returned 1,
     { s with
       thread := match java_thread E s.thread with
         | some th => some (th.set_saved_exception_pc pc)
         | none => s.thread,
       uc := some { uc with mc_srr0 := stub } })
  else run_chained_handler E sig info abort_if_unrecognized pc s

/-- The block "Handle ALL stack overflow variations here", entered with a SIGSEGV
whose address is within the stack bounds. -/
def stack_overflow_block (E : Env) (th : Thread) (pc addr : Nat) (s : State) : Flow × State :=
  if th.in_stack_yellow_zone addr then
    let th1 := th.disable_stack_yellow_zone
    let s1 := { s with thread := some th1 }
    if th1.thread_state = JavaThreadState._thread_in_Java then
      (Flow.run_stub
        (E.continuation_for_implicit_exception th1 pc ImplicitExceptionKind.STACK_OVERFLOW),
       s1.log (Event.continuation_for_implicit_exception pc ImplicitExceptionKind.STACK_OVERFLOW))
    else (Flow.ret 1, s1)
  else if th.in_stack_red_zone addr then
    (Flow.report_and_die,
     ({ s with thread := some th.disable_stack_red_zone }).log
       (Event.tty "An irrecoverable stack overflow has occurred."))
  else
    (Flow.report_and_die,
     s.log (Event.tty "SIGSEGV happened inside stack but outside yellow and red zone."))

/-- The block `thread->thread_state() == _thread_in_Java`. -/
def in_Java_block (E : Env) (sig : Int) (si : siginfo_t) (uc : ucontext_t) (th : Thread)
    (pc addr : Nat) (s : State) : Flow × State :=
  if sig = E.sigs.SIGILL ∧ pc < 0x200 then
    (Flow.report_and_die, s.trace_trap E "SIGILL happened inside zero page.")
  else if (E.TrapBasedNotEntrantChecks = true ∧ sig = E.sigs.SIGTRAP ∧
            E.is_sigtrap_zombie_not_entrant pc = true) ∨
          (E.TrapBasedNotEntrantChecks = false ∧ sig = E.sigs.SIGILL ∧
            E.is_sigill_zombie_not_entrant pc = true) then
    (Flow.run_stub E.get_handle_wrong_method_stub,
     s.trace_trap E "trap: zombie_not_entrant (%s)")
  else if sig = E.sigs.SIGSEGV ∧ E.is_poll_address addr = true then
    (Flow.run_stub (E.get_poll_stub pc), s.trace_trap E "trap: safepoint_poll at %p (SIGSEGV)")
  else if sig = E.sigs.SIGTRAP ∧ E.TrapBasedICMissChecks = true ∧
      E.is_sigtrap_ic_miss_check pc = true then
    (Flow.run_stub E.get_ic_miss_stub, s.trace_trap E "trap: ic_miss_check at %p (SIGTRAP)")
  else if sig = E.sigs.SIGTRAP ∧ E.TrapBasedNullChecks = true ∧
      E.is_sigtrap_null_check pc = true then
    (Flow.run_stub
      (E.continuation_for_implicit_exception th pc ImplicitExceptionKind.IMPLICIT_NULL),
     (s.trace_trap E "trap: null_check at %p (SIGTRAP)").log
       (Event.continuation_for_implicit_exception pc ImplicitExceptionKind.IMPLICIT_NULL))
  else if sig = E.sigs.SIGSEGV ∧ E.ImplicitNullChecks = true ∧ E.CodeCache_contains pc = true ∧
      E.needs_explicit_null_check si.si_addr = false then
    -- no `goto run_stub` here
    (Flow.next
      (E.continuation_for_implicit_exception th pc ImplicitExceptionKind.IMPLICIT_NULL),
     (s.trace_trap E "trap: null_check at %p (SIGSEGV)").log
       (Event.continuation_for_implicit_exception pc ImplicitExceptionKind.IMPLICIT_NULL))
  else if E.COMPILER2 = true ∧ sig = E.sigs.SIGTRAP ∧ E.TrapBasedRangeChecks = true ∧
      E.is_sigtrap_range_check pc = true then
    (Flow.run_stub
      (E.continuation_for_implicit_exception th pc ImplicitExceptionKind.IMPLICIT_NULL),
     (s.trace_trap E "trap: range_check at %p (SIGTRAP)").log
       (Event.continuation_for_implicit_exception pc ImplicitExceptionKind.IMPLICIT_NULL))
  else if sig = E.sigs.SIGFPE then
    (Flow.run_stub
      (E.continuation_for_implicit_exception th pc
        ImplicitExceptionKind.IMPLICIT_DIVIDE_BY_ZERO),
     (s.trace_trap E "Fix SIGFPE handler, trying divide by zero handler.").log
       (Event.continuation_for_implicit_exception pc
         ImplicitExceptionKind.IMPLICIT_DIVIDE_BY_ZERO))
  else if sig = E.sigs.SIGBUS then
    match E.find_blob_unsafe pc with
    | none => (Flow.null_dereference, s)
    | some cb =>
      if cb.is_nmethod = true ∧ cb.has_unsafe_access = true then
        (Flow.ret 1,
         { s with
           thread := some th.set_pending_unsafe_access_error,
           uc := some { uc with mc_srr0 := ptr_add4 pc } })
      else (Flow.next 0, s)
  else (Flow.next 0, s)

/-- The block `thread->thread_state() != _thread_in_Java`. -/
def not_in_Java_block (E : Env) (sig : Int) (uc : ucontext_t) (th : Thread)
    (pc : Nat) (s : State) : Flow × State :=
  if sig = E.sigs.SIGILL ∧ E.is_determine_features_test_running = true then
    (Flow.run_stub (ptr_add4 pc), s.log (Event.patch_instruction pc))
  else if th.thread_state = JavaThreadState._thread_in_vm ∧ sig = E.sigs.SIGBUS ∧
      th.doing_unsafe_access = true then
    (Flow.ret 1,
     { s with
       thread := some th.set_pending_unsafe_access_error,
       uc := some { uc with mc_srr0 := ptr_add4 pc } })
  else (Flow.next 0, s)

/-- The block `if (thread != NULL)`: "If we are a java thread...". -/
def java_thread_block (E : Env) (sig : Int) (si : siginfo_t) (uc : ucontext_t) (th : Thread)
    (pc : Nat) (s : State) : Flow × State :=
  let addr := stack_guard_compensation E si.si_addr
  if sig = E.sigs.SIGSEGV ∧ in_stack_bounds th addr = true then
    stack_overflow_block E th pc addr s
  else
    let r :=
      if th.thread_state = JavaThreadState._thread_in_Java then
        in_Java_block E sig si uc th pc addr s
      else not_in_Java_block E sig uc th pc s
    match r with
    | (Flow.next stub, s1) =>
      if sig = E.sigs.SIGSEGV ∧ E.is_memory_serialize_page th addr = true then
        (Flow.ret 1, s1.log Event.block_on_serialize_page_trap)
      else (Flow.run_stub stub, s1)
    | r => r

/-- The labels a block of the handler leaves to: `run_stub`, `report_and_die`, or a
`return`. -/
def leave (E : Env) (sig : Int) (info : Option siginfo_t) (abort_if_unrecognized : Int)
    (pc : Nat) (uc : ucontext_t) : Flow × State → Exit × State
  | (Flow.run_stub stub, s1) => run_stub E sig info abort_if_unrecognized pc uc stub s1
  | (Flow.next stub, s1) => run_stub E sig info abort_if_unrecognized pc uc stub s1
  | (Flow.report_and_die, s1) => report_and_die sig pc s1
  | (Flow.ret r, s1) => (Exit.returned r, s1)
  | (Flow.null_dereference, s1) => (Exit.null_dereference, s1)

/-- The function `JVM_handle_bsd_signal(sig, info, ucVoid, abort_if_unrecognized)`; `ucVoid` and
the thread of `ThreadLocalStorage::get_thread_slow()` are in the state. -/
def JVM_handle_bsd_signal (E : Env) (sig : Int) (info : Option siginfo_t)
    (abort_if_unrecognized : Int) (s : State) : Exit × State :=
  if sig = E.sigs.SIGPIPE then
    let s1 := s.log (Event.chained_handler sig)
    if E.chained_handler sig info s.uc then (Exit.returned 1, s1)
    else if E.PrintMiscellaneous && (E.WizardMode || E.Verbose) then
      (Exit.returned 1, s1.log (Event.warning "Ignoring SIGPIPE - see bug 4229104"))
    else (Exit.returned 1, s1)
  else
    match s.uc with
    | some uc =>
      let pc := ucontext_get_pc uc
      if pc ≠ 0 ∧ E.is_safefetch_fault pc = true then
        (Exit.returned 1,
         { s with uc := some { uc with mc_srr0 := E.continuation_for_safefetch_fault pc } })
      else
        match info, java_thread E s.thread with
        | some si, some th =>
          leave E sig info abort_if_unrecognized pc uc (java_thread_block E sig si uc th pc s)
        | some _, none =>
          if vm_thread E s.thread then
            run_stub E sig info abort_if_unrecognized pc uc 0 s
          else run_chained_handler E sig info abort_if_unrecognized pc s
        | none, _ => run_chained_handler E sig info abort_if_unrecognized pc s
    | none => run_chained_handler E sig info abort_if_unrecognized 0 s

/-! ## A concrete configuration -/

/-- A Java thread in managed code with the stack `[0xF0000, 0x100000)`, red zone
`[0xF0000, 0xF1000)` and yellow zone `[0xF1000, 0xF3000)`. -/
def javaThread : Thread :=
  { is_Java_thread := true, is_VM_thread := false,
    stack_base := 0x100000, stack_size := 0x10000,
    guard_zone_state := GuardState.normal,
    thread_state := JavaThreadState._thread_in_Java,
    doing_unsafe_access := false, pending_unsafe_access_error := false,
    saved_exception_pc := 0,
    in_stack_yellow_zone := fun a => decide (0xF1000 ≤ a) && decide (a < 0xF3000),
    in_stack_red_zone := fun a => decide (0xF0000 ≤ a) && decide (a < 0xF1000) }

/-- The same thread inside the runtime, during an unsafe access. -/
def vmStateThread : Thread :=
  { javaThread with thread_state := JavaThreadState._thread_in_vm, doing_unsafe_access := true }

/-- The same thread in native code. -/
def nativeThread : Thread :=
  { javaThread with thread_state := JavaThreadState._thread_in_native }

/-- A machine context with the program counter at `pc`. -/
def contextAt (pc : Nat) : ucontext_t :=
  { mc_srr0 := pc, mc_lr := 0, mc_ctr := 0, mc_gpr := fun _ => 0 }

/-- A FreeBSD build with the kernel stack gap disabled, no chained handler, the poll
page at `0x20000`, the serialize page at `0x30000`, compiled code in
`[0x5000, 0x6000)` with one implicit-exception entry at `0x5000`. -/
def bsdEnv : Env :=
  { sigs := bsdSignals, FreeBSD := true, COMPILER2 := true,
    signal_handlers_are_installed := true,
    chained_handler := fun _ _ _ => false,
    PrintMiscellaneous := false, WizardMode := false, Verbose := false, TraceTraps := false,
    is_safefetch_fault := fun pc => pc == 0x4000,
    continuation_for_safefetch_fault := fun _ => 0x4010,
    procctl_ret := 0, procctl_status := 2, sysctlbyname_ret := 0, guard_pages := 1,
    vm_page_size := 4096,
    continuation_for_implicit_exception := fun _ pc k =>
      match k with
      | ImplicitExceptionKind.STACK_OVERFLOW => 0x7200
      | ImplicitExceptionKind.IMPLICIT_DIVIDE_BY_ZERO => if pc = 0x5000 then 0x7100 else 0
      | ImplicitExceptionKind.IMPLICIT_NULL => if pc = 0x5000 then 0x7000 else 0,
    TrapBasedNotEntrantChecks := true, TrapBasedICMissChecks := true,
    TrapBasedNullChecks := true, TrapBasedRangeChecks := true, ImplicitNullChecks := true,
    is_sigtrap_zombie_not_entrant := fun _ => false,
    is_sigill_zombie_not_entrant := fun _ => false,
    is_sigtrap_ic_miss_check := fun _ => false,
    is_sigtrap_null_check := fun _ => false,
    is_sigtrap_range_check := fun _ => false,
    get_handle_wrong_method_stub := 0x7300,
    get_poll_stub := fun _ => 0x7400,
    get_ic_miss_stub := 0x7500,
    is_poll_address := fun a => decide (0x20000 ≤ a) && decide (a < 0x21000),
    CodeCache_contains := fun pc => decide (0x5000 ≤ pc) && decide (pc < 0x6000),
    needs_explicit_null_check := fun a => decide (0x1000 ≤ a),
    find_blob_unsafe := fun pc =>
      if 0x5000 ≤ pc ∧ pc < 0x6000 then
        some { is_nmethod := true, has_unsafe_access := decide (pc < 0x5800) }
      else none,
    is_determine_features_test_running := false,
    is_memory_serialize_page := fun _ a => decide (0x30000 ≤ a) && decide (a < 0x31000) }

/-- The state on entry: context at `pc`, current thread `t`, nothing blocked, empty trace. -/
def entryState (pc : Nat) (t : Thread) : State :=
  { uc := some (contextAt pc), thread := some t, blocked := fun _ => false, trace := [] }

/-! ## Auxiliary notions for the trap handler -/

/-- Shape of what a block of the handler does, entered by the Java thread `th` with
context `uc`, blocked set `b` and trace `tr`: the blocked set is untouched, a `return`
returns 1, and the machine context and the flag pending_unsafe_access_error are as
before, unless the block is left through one of the two SIGBUS branches that skip
the faulting instruction. -/
def Frame (E : Env) (sig : Int) (uc : ucontext_t) (th : Thread) (pc : Nat)
    (b : Int → Bool) (tr : List Event) (r : Flow × State) : Prop :=
  r.2.blocked = b ∧
  (∀ k, r.1 = Flow.ret k → k = 1) ∧
  ((r.2.uc = some uc ∧
    ∃ th1, r.2.thread = some th1 ∧
      th1.pending_unsafe_access_error = th.pending_unsafe_access_error ∧
      th1.is_Java_thread = th.is_Java_thread) ∨
   (sig = E.sigs.SIGBUS ∧
    ((th.thread_state = JavaThreadState._thread_in_Java ∧
        ∃ cb, E.find_blob_unsafe pc = some cb ∧ cb.is_nmethod = true ∧
          cb.has_unsafe_access = true) ∨
      (th.thread_state = JavaThreadState._thread_in_vm ∧ th.doing_unsafe_access = true)) ∧
    r = (Flow.ret 1,
       ⟨some { uc with mc_srr0 := ptr_add4 pc }, some th.set_pending_unsafe_access_error,
        b, tr⟩)))

/-- The state in which control reaches the generic fallback of the handler (label
`run_chained_handler`, or label `run_stub` with a null stub), when it does: no
rule has returned, gone to `report_and_die`, or selected a stub that is not null. -/
def fallback_state (E : Env) (sig : Int) (info : Option siginfo_t) (s : State) :
    Option State :=
  if sig = E.sigs.SIGPIPE then none
  else
    match s.uc with
    | none => some s
    | some uc =>
      if ucontext_get_pc uc ≠ 0 ∧ E.is_safefetch_fault (ucontext_get_pc uc) = true then none
      else
        match info, java_thread E s.thread with
        | some si, some th =>
          match java_thread_block E sig si uc th (ucontext_get_pc uc) s with
          | (Flow.run_stub stub, s1) => if stub = 0 then some s1 else none
          | (Flow.next stub, s1) => if stub = 0 then some s1 else none
          | _ => none
        | _, _ => some s

/-! ## `vmError_bsd.cpp`: the fatal error path -/

/-- The function `crash_handler(sig, info, ucVoid)`: unmask the signal, then
`VMError err(NULL, sig, NULL, info, ucVoid); err.report_and_die()`. -/
def crash_handler (sig : Int) (s : State) : Exit × State :=
  (Exit.report_and_die,
   { s with
     blocked := fun x => if x = sig then false else s.blocked x,
     trace := s.trace ++ [Event.sigprocmask_unblock sig, Event.VMError_report_and_die sig 0] })

/-- Constants `vmError_bsd.cpp` takes from its surroundings. -/
structure VmErrorEnv where
  sigs : Signals
  /-- the flag bit `SA_SIGINFO` of `<signal.h>` -/
  SA_SIGINFO : Nat
  /-- the address of the function `crash_handler` -/
  crash_handler : Int
  /-- the flags `os::signal` installs a handler with -/
  os_signal_flags : Nat

/-- The record `struct sigaction`, as far as `save_signal` reads it. -/
structure sigaction_t where
  sa_flags : Nat
  sa_handler : Int
  sa_sigaction : Int
  deriving DecidableEq, Repr

/-- A call `vmError_bsd.cpp` makes into the system while resetting the handlers. -/
inductive VmErrorCall
  /-- `sigaction(sig, NULL, &sa)`: read the disposition -/
  | sigaction_query (sig : Int)
  /-- `os::signal(sig, handler)`: install a handler -/
  | os_signal (sig : Int) (handler : Int)
  deriving DecidableEq, Repr

/-- The dispositions of the process, the two static arrays `resettedSigflags` and
`resettedSighandler`, and the calls made so far. -/
structure VmErrorState where
  disposition : Int → sigaction_t
  resettedSigflags : Fin 2 → Nat
  resettedSighandler : Fin 2 → Int
  calls : List VmErrorCall

/-- The function `save_signal(idx, sig)`. -/
def save_signal (V : VmErrorEnv) (idx : Fin 2) (sig : Int) (s : VmErrorState) :
    VmErrorState :=
  let sa := s.disposition sig
  { s with
    resettedSigflags := fun i => if i = idx then sa.sa_flags else s.resettedSigflags i,
    resettedSighandler := fun i =>
      if i = idx then
        (if sa.sa_flags &&& V.SA_SIGINFO ≠ 0 then sa.sa_sigaction else sa.sa_handler)
      else s.resettedSighandler i,
    calls := s.calls ++ [VmErrorCall.sigaction_query sig] }

/-- The function `VMError::get_resetted_sigflags(sig)`. -/
def get_resetted_sigflags (V : VmErrorEnv) (sig : Int) (s : VmErrorState) : Int :=
  if V.sigs.SIGSEGV = sig then (s.resettedSigflags 0 : Int)
  else if V.sigs.SIGBUS = sig then (s.resettedSigflags 1 : Int)
  else -1

/-- The function `VMError::get_resetted_sighandler(sig)`; NULL is 0. -/
def get_resetted_sighandler (V : VmErrorEnv) (sig : Int) (s : VmErrorState) : Int :=
  if V.sigs.SIGSEGV = sig then s.resettedSighandler 0
  else if V.sigs.SIGBUS = sig then s.resettedSighandler 1
  else 0

/-- Modelled from the spec: `os::signal` (os_bsd.cpp) is missing from the embedded
files.  Seen on the full disposition record: the call replaces the disposition of the
one signal by the new handler, and touches nothing else. -/
def os_signal_disposition (V : VmErrorEnv) (sig handler : Int) (s : VmErrorState) :
    VmErrorState :=
  { s with
    disposition := fun x =>
      if x = sig then
        { sa_flags := V.os_signal_flags, sa_handler := handler, sa_sigaction := handler }
      else s.disposition x,
    calls := s.calls ++ [VmErrorCall.os_signal sig handler] }

/-- The function `VMError::reset_signal_handlers()`. -/
def reset_signal_handlers (V : VmErrorEnv) (s : VmErrorState) : VmErrorState :=
  let s1 := save_signal V 0 V.sigs.SIGSEGV s
  let s2 := save_signal V 1 V.sigs.SIGBUS s1
  let s3 := os_signal_disposition V V.sigs.SIGSEGV V.crash_handler s2
  os_signal_disposition V V.sigs.SIGBUS V.crash_handler s3

/-- The debugger of `GDB_CMD`. -/
def GDB_CMD : List Char := "gdb".toList

/-- The conversion `%d` of an `int`. -/
def decimal (n : Int) : List Char := (toString n).toList

/-- Modelled from the spec: `jio_snprintf` (jvm.cpp) is missing from the embedded
files.  Seen on the buffer: with `count` the `size_t` it is passed, it writes nothing
(and returns -1) when `(intptr_t)count <= 0`, that is when `count` is 0 or at least
2^63; otherwise it writes the formatted text cut to `count - 1` characters and the
terminator.  The result is the text written, if any. -/
def jio_snprintf (count : Nat) (text : List Char) : Option (List Char) :=
  if count = 0 ∨ 2 ^ 63 ≤ count then none else some (text.take (count - 1))

/-- The function `set_debugger(buf, buflen)`: the text written to `buf`, if any.  `pid` is
`os::current_process_id()`; `sysctl_ret`, `len` and `cmd` are what the query
`sysctl(KERN_PROC_PATHNAME)` returned and wrote (the code ends `cmd` at index `len`).
The `int buflen` is passed as a `size_t`. -/
def set_debugger (FreeBSD : Bool) (pid : Int) (sysctl_ret : Int) (len : Nat)
    (cmd : List Char) (buflen : Int) : Option (List Char) :=
  if FreeBSD = true ∧ sysctl_ret = 0 ∧ len > 0 then
    jio_snprintf (buflen % 2 ^ 64).toNat
      (GDB_CMD ++ " ".toList ++ cmd.take len ++ " ".toList ++ decimal pid)
  else
    jio_snprintf (buflen % 2 ^ 64).toNat
      (GDB_CMD ++ " /proc/".toList ++ decimal pid ++ "/file ".toList ++ decimal pid)

/-- The function `VMError::show_message_box(buf, buflen)`: the command handed to
`os::fork_and_exec`, if any.  `prior` is the text in `buf` on entry, which stays when
`set_debugger` writes nothing; `yes` is the answer of `os::message_box`; the text
of the message is put behind the terminator of the command. -/
def show_message_box (FreeBSD : Bool) (pid : Int) (sysctl_ret : Int) (len : Nat)
    (cmd : List Char) (buflen : Int) (prior : List Char) (yes : Bool) :
    Option (List Char) :=
  if yes then some ((set_debugger FreeBSD pid sysctl_ret len cmd buflen).getD prior) else none

/-! ## `os_bsd_ppc.cpp`: the register dump -/

/-- One operation on the output stream. -/
inductive Out
  /-- characters of a format text -/
  | text (s : String)
  /-- a value printed through `INTPTR_FORMAT` or `PTR_FORMAT` -/
  | hex (v : Nat)
  /-- a line break (`cr`, or the end of a `print_cr`) -/
  | cr
  /-- the output of `print_hex_dump(st, start, stop, unitsize)` -/
  | hex_dump (start stop unitsize : Nat)
  deriving DecidableEq, Repr

/-- The conversion `%-2d`: the decimal number, filled with blanks on the right to two
characters. -/
def left_justified2 (i : Nat) : String :=
  (toString i).pushn ' ' (2 - (toString i).length)

/-- The label `r%-2d=` of a general register. -/
def register_label (i : Nat) : String := "r" ++ left_justified2 i ++ "="

/-- Size of `intptr_t` on the port, in bytes. -/
def sizeof_intptr_t : Nat := 8

/-- One pass of the loop over the general registers in `os::print_context`. -/
def print_register (uc : ucontext_t) (i : Nat) : List Out :=
  [Out.text (register_label i), Out.hex (uc.mc_gpr (Fin.ofNat i)), Out.text "  "] ++
    (if i % 3 = 2 then [Out.cr] else [])

/-- The function `os::print_context(st, context)`: what it sends to the stream. -/
def print_context (context : Option ucontext_t) : List Out :=
  match context with
  | none => []
  | some uc =>
    [Out.text "Registers:", Out.cr,
     Out.text "pc =", Out.hex uc.mc_srr0, Out.text "  ",
     Out.text "lr =", Out.hex uc.mc_lr, Out.text "  ",
     Out.text "ctr=", Out.hex uc.mc_ctr, Out.text "  ",
     Out.cr] ++
    (List.range 32).flatMap (print_register uc) ++
    [Out.cr, Out.cr,
     Out.text "Top of Stack: (sp=", Out.hex (ucontext_get_sp uc), Out.text ")", Out.cr,
     Out.hex_dump (ucontext_get_sp uc)
       ((ucontext_get_sp uc + 128 * sizeof_intptr_t) % WORD) sizeof_intptr_t,
     Out.cr,
     Out.text "Instructions: (pc=", Out.hex (ucontext_get_pc uc), Out.text ")", Out.cr,
     Out.hex_dump (ptr_sub (ucontext_get_pc uc) 64) ((ucontext_get_pc uc + 64) % WORD) 4,
     Out.cr]

/-- A general register in the dump: label, value, two blanks. -/
def register_cell (uc : ucontext_t) (i : Nat) : List Out :=
  [Out.text (register_label i), Out.hex (uc.mc_gpr (Fin.ofNat i)), Out.text "  "]

/-- A full row of the dump: registers 3k, 3k+1, 3k+2 and a line break. -/
def register_row (uc : ucontext_t) (k : Nat) : List Out :=
  register_cell uc (3 * k) ++ register_cell uc (3 * k + 1) ++ register_cell uc (3 * k + 2)
    ++ [Out.cr]

/-- The layout of the crash report in words: the line `Registers:`; a row with pc, lr
and ctr; the general registers in ascending order, three to a row, as ten full rows
and a row with r30 and r31; a blank line; the stack header and the dump of 128 words
from sp; the instruction header and the dump of the bytes from pc - 64 to pc + 64 in
units of 4 bytes. -/
def crash_report_layout (uc : ucontext_t) : List Out :=
  [Out.text "Registers:", Out.cr] ++
  [Out.text "pc =", Out.hex uc.mc_srr0, Out.text "  ",
   Out.text "lr =", Out.hex uc.mc_lr, Out.text "  ",
   Out.text "ctr=", Out.hex uc.mc_ctr, Out.text "  ", Out.cr] ++
  (List.range 10).flatMap (register_row uc) ++
  (register_cell uc 30 ++ register_cell uc 31 ++ [Out.cr]) ++
  [Out.cr] ++
  [Out.text "Top of Stack: (sp=", Out.hex (uc.mc_gpr 1), Out.text ")", Out.cr,
   Out.hex_dump (uc.mc_gpr 1) ((uc.mc_gpr 1 + 128 * 8) % 2 ^ 64) 8, Out.cr] ++
  [Out.text "Instructions: (pc=", Out.hex uc.mc_srr0, Out.text ")", Out.cr,
   Out.hex_dump (ptr_sub uc.mc_srr0 64) ((uc.mc_srr0 + 64) % 2 ^ 64) 4, Out.cr]

/-! ## Decision lists -/

/-- A first-match decision list: the result of the first rule whose condition holds,
the default when none does. -/
def first_match {α : Type} : List (Bool × α) → α → α
  | [], d => d
  | (c, r) :: rest, d => if c then r else first_match rest d

/-- The pc lies in compiled code with unsafe access: the blob found at pc is an nmethod
and has unsafe access. -/
def in_unsafe_access_code (E : Env) (pc : Nat) : Bool :=
  match E.find_blob_unsafe pc with
  | some cb => cb.is_nmethod && cb.has_unsafe_access
  | none => false

/-- The rules of `JVM_handle_bsd_signal` for a Java thread in managed code in the order
of the source text, each with the label it leaves to and the state it leaves: the
rules of the block `_thread_in_Java` in the order of its else-if chain, then the test
of the memory-serialize page that follows the block. -/
def managed_code_rules (E : Env) (sig : Int) (si : siginfo_t) (uc : ucontext_t)
    (th : Thread) (pc addr : Nat) (s : State) : List (Bool × (Flow × State)) :=
  [ (decide (sig = E.sigs.SIGSEGV ∧ in_stack_bounds th addr = true),
      stack_overflow_block E th pc addr s),
    (decide (sig = E.sigs.SIGILL ∧ pc < 0x200),
      (Flow.report_and_die, s.trace_trap E "SIGILL happened inside zero page.")),
    (decide ((E.TrapBasedNotEntrantChecks = true ∧ sig = E.sigs.SIGTRAP ∧
            E.is_sigtrap_zombie_not_entrant pc = true) ∨
          (E.TrapBasedNotEntrantChecks = false ∧ sig = E.sigs.SIGILL ∧
            E.is_sigill_zombie_not_entrant pc = true)),
      (Flow.run_stub E.get_handle_wrong_method_stub,
       s.trace_trap E "trap: zombie_not_entrant (%s)")),
    (decide (sig = E.sigs.SIGSEGV ∧ E.is_poll_address addr = true),
      (Flow.run_stub (E.get_poll_stub pc),
       s.trace_trap E "trap: safepoint_poll at %p (SIGSEGV)")),
    (decide (sig = E.sigs.SIGTRAP ∧ E.TrapBasedICMissChecks = true ∧
          E.is_sigtrap_ic_miss_check pc = true),
      (Flow.run_stub E.get_ic_miss_stub,
       s.trace_trap E "trap: ic_miss_check at %p (SIGTRAP)")),
    (decide (sig = E.sigs.SIGTRAP ∧ E.TrapBasedNullChecks = true ∧
          E.is_sigtrap_null_check pc = true),
      (Flow.run_stub
        (E.continuation_for_implicit_exception th pc ImplicitExceptionKind.IMPLICIT_NULL),
       (s.trace_trap E "trap: null_check at %p (SIGTRAP)").log
         (Event.continuation_for_implicit_exception pc ImplicitExceptionKind.IMPLICIT_NULL))),
    (decide (sig = E.sigs.SIGSEGV ∧ E.ImplicitNullChecks = true ∧
          E.CodeCache_contains pc = true ∧ E.needs_explicit_null_check si.si_addr = false),
      (Flow.run_stub
        (E.continuation_for_implicit_exception th pc ImplicitExceptionKind.IMPLICIT_NULL),
       (s.trace_trap E "trap: null_check at %p (SIGSEGV)").log
         (Event.continuation_for_implicit_exception pc ImplicitExceptionKind.IMPLICIT_NULL))),
    (decide (E.COMPILER2 = true ∧ sig = E.sigs.SIGTRAP ∧ E.TrapBasedRangeChecks = true ∧
          E.is_sigtrap_range_check pc = true),
      (Flow.run_stub
        (E.continuation_for_implicit_exception th pc ImplicitExceptionKind.IMPLICIT_NULL),
       (s.trace_trap E "trap: range_check at %p (SIGTRAP)").log
         (Event.continuation_for_implicit_exception pc ImplicitExceptionKind.IMPLICIT_NULL))),
    (decide (sig = E.sigs.SIGFPE),
      (Flow.run_stub
        (E.continuation_for_implicit_exception th pc
          ImplicitExceptionKind.IMPLICIT_DIVIDE_BY_ZERO),
       (s.trace_trap E "Fix SIGFPE handler, trying divide by zero handler.").log
         (Event.continuation_for_implicit_exception pc
           ImplicitExceptionKind.IMPLICIT_DIVIDE_BY_ZERO))),
    (decide (sig = E.sigs.SIGBUS ∧ in_unsafe_access_code E pc = true),
      (Flow.ret 1,
       { s with
         thread := some th.set_pending_unsafe_access_error,
         uc := some { uc with mc_srr0 := ptr_add4 pc } })),
    (decide (sig = E.sigs.SIGSEGV ∧ E.is_memory_serialize_page th addr = true),
      (Flow.ret 1, s.log Event.block_on_serialize_page_trap)) ]

/-- The table `sys_signame[]` of `<signal.h>` and its size `NSIG`; they are not among the
embedded files and are parameters. -/
structure SignalNames where
  NSIG : Nat
  sys_signame : Nat → List Char

/-- The test `strcasecmp(a, b) == 0`: equal after mapping every letter to lower case. -/
def strcasecmp_eq (a b : List Char) : Bool :=
  a.map Char.toLower == b.map Char.toLower

/-- The loop of `JVM_FindSignal` with `k` indices left, the next one being `i`. -/
def JVM_FindSignal_from (N : SignalNames) (name : List Char) : Nat → Nat → Int
  | 0, _ => -1
  | k + 1, i =>
    if strcasecmp_eq name (N.sys_signame i) = true then (i : Int)
    else JVM_FindSignal_from N name k (i + 1)

/-- The function `JVM_FindSignal(name)`: `for (int i = 1; i < NSIG; i++)`. -/
def JVM_FindSignal (N : SignalNames) (name : List Char) : Int :=
  JVM_FindSignal_from N name (N.NSIG - 1) 1

/-- The function `signal_name(signo, buf, len)`: the value returned and, when something is
written, the text left in `buf`.  The local `signame[8]` takes at most 7 characters,
each through `toupper`. -/
def signal_name (N : SignalNames) (signo : Int) (len : Nat) : Bool × Option (List Char) :=
  if signo ≤ 0 ∨ signo ≥ (N.NSIG : Int) then (false, none)
  else
    (true,
     jio_snprintf len
       ("SIG".toList ++ ((N.sys_signame signo.toNat).take 7).map Char.toUpper))

/-- The signal names of FreeBSD, `NSIG` = 32. -/
def bsdSignalNames : SignalNames :=
  { NSIG := 32,
    sys_signame := fun i =>
      (["Signal 0", "hup", "int", "quit", "ill", "trap", "abrt", "emt", "fpe", "kill",
        "bus", "segv", "sys", "pipe", "alrm", "term", "urg", "stop", "tstp", "cont",
        "chld", "ttin", "ttou", "io", "xcpu", "xfsz", "vtalrm", "prof", "winch", "info",
        "usr1", "usr2"].getD i "").toList }

/-! ## `java_md_solinux.h`: the interval counter of the launcher -/

/-- A reading of the clock: seconds and nanoseconds within the second. -/
structure timespec where
  tv_sec : Nat
  tv_nsec : Nat

/-- The reading in nanoseconds: what the system function `gethrtime()` of
`<sys/time.h>` returns. -/
def nanoseconds (t : timespec) : Nat := t.tv_sec * 1000000000 + t.tv_nsec

/-- The reading in whole microseconds. -/
def whole_microseconds (t : timespec) : Nat := nanoseconds t / 1000

/-- The value of `gethrtime()` as the header provides it: the system function when
`HAVE_GETHRTIME` is defined, otherwise the macro of the `__FreeBSD__` branch,
`(uint64_t)tp.tv_sec*1000000 + tp.tv_nsec/1000`. -/
def gethrtime (HAVE_GETHRTIME : Bool) (t : timespec) : Nat :=
  if HAVE_GETHRTIME then nanoseconds t
  else (t.tv_sec * 1000000 + t.tv_nsec / 1000) % 2 ^ 64

/-- The macro `CounterGet()`; `FreeBSD` stands for `__FreeBSD__`. -/
def CounterGet (HAVE_GETHRTIME FreeBSD : Bool) (t : timespec) : Nat :=
  if HAVE_GETHRTIME || FreeBSD then gethrtime HAVE_GETHRTIME t / 1000 else 0

/-- The macro `Counter2Micros(counts)`. -/
def Counter2Micros (HAVE_GETHRTIME FreeBSD : Bool) (counts : Nat) : Nat :=
  if HAVE_GETHRTIME || FreeBSD then counts else 1

/-! ## Properties of the registration surface -/

/-- The named signal numbers that have to differ for the claims below. -/
theorem Signals.Distinct.ne (S : Signals) (h : S.Distinct) :
    (S.SIGILL ≠ S.SIGPIPE ∧ S.SIGTRAP ≠ S.SIGPIPE ∧ S.SIGFPE ≠ S.SIGPIPE ∧
      S.SIGBUS ≠ S.SIGPIPE ∧ S.SIGSEGV ≠ S.SIGPIPE) ∧
    (S.SIGFPE ≠ S.SIGILL ∧ S.SIGFPE ≠ S.SIGTRAP ∧ S.SIGFPE ≠ S.SIGSEGV ∧
      S.SIGBUS ≠ S.SIGILL ∧ S.SIGBUS ≠ S.SIGTRAP ∧ S.SIGBUS ≠ S.SIGSEGV ∧
      S.SIGBUS ≠ S.SIGFPE ∧ S.SIGSEGV ≠ S.SIGILL ∧ S.SIGSEGV ≠ S.SIGTRAP) ∧
    (∀ sig, sig = S.SHUTDOWN1_SIGNAL ∨ sig = S.SHUTDOWN2_SIGNAL ∨ sig = S.SHUTDOWN3_SIGNAL →
      ¬ (sig = S.INTERRUPT_SIGNAL ∨ sig = S.SIGFPE ∨ sig = S.SIGILL ∨ sig = S.SIGBUS
        ∨ sig = S.SIGSEGV ∨ sig = S.BREAK_SIGNAL)) := by
  unfold Signals.Distinct at h
  refine ⟨?_, ?_, ?_⟩
  · refine ⟨?_, ?_, ?_, ?_, ?_⟩ <;> (intro e; simp [e] at h)
  · refine ⟨?_, ?_, ?_, ?_, ?_, ?_, ?_, ?_, ?_⟩ <;> (intro e; simp [e] at h)
  · intro sig hs
    rcases hs with rfl | rfl | rfl <;> simp only [not_or] <;>
      refine ⟨?_, ?_, ?_, ?_, ?_, ?_⟩ <;> (intro e; simp [e] at h)

/-- C1: for each VM-reserved signal kind (INTERRUPT_SIGNAL, SIGFPE, SIGILL, SIGBUS,
SIGSEGV, BREAK_SIGNAL), whatever the handler argument and whatever ReduceSignalUsage,
`JVM_RegisterSignal` returns `(void*)-1` and leaves the state as it was: `os::signal` is
not called and every installed handler is unchanged. -/
theorem C1_register_reserved_is_rejected (S : Signals) (user_handler : Int)
    (ReduceSignalUsage : Bool) (sig handler : Int) (s : OsState)
    (hsig : sig = S.INTERRUPT_SIGNAL ∨ sig = S.SIGFPE ∨ sig = S.SIGILL ∨ sig = S.SIGBUS
      ∨ sig = S.SIGSEGV ∨ sig = S.BREAK_SIGNAL) :
    JVM_RegisterSignal S user_handler ReduceSignalUsage sig handler s = (-1, s) := by
  simp [JVM_RegisterSignal, hsig]

/-- Witness of C1: SIGSEGV (11) on FreeBSD, handler 7. -/
theorem C1_register_reserved_is_rejected_witness :
    ((11 : Int) = bsdSignals.INTERRUPT_SIGNAL ∨ (11 : Int) = bsdSignals.SIGFPE
      ∨ (11 : Int) = bsdSignals.SIGILL ∨ (11 : Int) = bsdSignals.SIGBUS
      ∨ (11 : Int) = bsdSignals.SIGSEGV ∨ (11 : Int) = bsdSignals.BREAK_SIGNAL) ∧
    JVM_RegisterSignal bsdSignals 99 false 11 7 OsState.initial = (-1, OsState.initial) :=
  ⟨by decide, C1_register_reserved_is_rejected bsdSignals 99 false 11 7 OsState.initial
    (by decide)⟩

/-- C2, as stated, fails: on FreeBSD with `os::user_handler()` at address 99, for SIGALRM
(14, neither reserved nor a shutdown signal), register(14, 99) followed by
register(14, 7) answers 2 from the second call, not the handler 99 installed by the
first. -/
theorem C2_register_round_trip_counterexample :
    ¬ ((14 : Int) = bsdSignals.INTERRUPT_SIGNAL ∨ (14 : Int) = bsdSignals.SIGFPE
      ∨ (14 : Int) = bsdSignals.SIGILL ∨ (14 : Int) = bsdSignals.SIGBUS
      ∨ (14 : Int) = bsdSignals.SIGSEGV ∨ (14 : Int) = bsdSignals.BREAK_SIGNAL
      ∨ (14 : Int) = bsdSignals.SHUTDOWN1_SIGNAL ∨ (14 : Int) = bsdSignals.SHUTDOWN2_SIGNAL
      ∨ (14 : Int) = bsdSignals.SHUTDOWN3_SIGNAL) ∧
    (JVM_RegisterSignal bsdSignals 99 false 14 99 OsState.initial).2.handler 14 = 99 ∧
    (JVM_RegisterSignal bsdSignals 99 false 14 7
      (JVM_RegisterSignal bsdSignals 99 false 14 99 OsState.initial).2).1 = 2 ∧
    (JVM_RegisterSignal bsdSignals 99 false 14 7
      (JVM_RegisterSignal bsdSignals 99 false 14 99 OsState.initial).2).1 ≠ 99 := by
  decide

/-- C2, amended: for a signal kind that is neither VM-reserved nor shutdown-related,
`JVM_RegisterSignal(sig, h)` installs `h`, with 2 standing for `os::user_handler()`, and
returns the previous handler, with `os::user_handler()` reported as 2.  So for handler
values A and B other than the raw pointer `os::user_handler()` (the value 2 is allowed),
in register(sig, A), register(sig, B), register(sig, A) the second call returns A, the
third returns B, and the handler installed at the end is A (`os::user_handler()` when A
is 2). -/
theorem C2_register_round_trip (S : Signals) (user_handler : Int) (R : Bool)
    (sig A B : Int) (s : OsState)
    (hres : ¬ (sig = S.INTERRUPT_SIGNAL ∨ sig = S.SIGFPE ∨ sig = S.SIGILL ∨ sig = S.SIGBUS
      ∨ sig = S.SIGSEGV ∨ sig = S.BREAK_SIGNAL))
    (hsd : ¬ (sig = S.SHUTDOWN1_SIGNAL ∨ sig = S.SHUTDOWN2_SIGNAL ∨ sig = S.SHUTDOWN3_SIGNAL))
    (hA : A ≠ user_handler) (hB : B ≠ user_handler) :
    (JVM_RegisterSignal S user_handler R sig A s).1
        = (if s.handler sig = user_handler then 2 else s.handler sig) ∧
    (JVM_RegisterSignal S user_handler R sig A s).2.handler sig
        = (if A = 2 then user_handler else A) ∧
    (JVM_RegisterSignal S user_handler R sig B
        (JVM_RegisterSignal S user_handler R sig A s).2).1 = A ∧
    (JVM_RegisterSignal S user_handler R sig A
        (JVM_RegisterSignal S user_handler R sig B
          (JVM_RegisterSignal S user_handler R sig A s).2).2).1 = B ∧
    (JVM_RegisterSignal S user_handler R sig A
        (JVM_RegisterSignal S user_handler R sig B
          (JVM_RegisterSignal S user_handler R sig A s).2).2).2.handler sig
        = (if A = 2 then user_handler else A) := by
  have key : ∀ (h : Int) (t : OsState),
      JVM_RegisterSignal S user_handler R sig h t =
        ((if t.handler sig = user_handler then 2 else t.handler sig),
         { handler := fun x => if x = sig then (if h = 2 then user_handler else h)
             else t.handler x,
           calls := t.calls ++ [OsCall.signal sig (if h = 2 then user_handler else h)] }) := by
    intro h t
    simp only [JVM_RegisterSignal, os_signal, if_neg hres, if_neg hsd]
    split_ifs <;> rfl
  simp only [key, if_true]
  refine ⟨trivial, trivial, ?_, ?_, trivial⟩
  · by_cases hA2 : A = 2
    · simp [hA2]
    · simp [hA2, hA]
  · by_cases hB2 : B = 2
    · simp [hB2]
    · simp [hB2, hB]

/-- Witness of C2: SIGALRM (14) on FreeBSD, A = 2 (the user handler), B = 7. -/
theorem C2_register_round_trip_witness :
    (JVM_RegisterSignal bsdSignals 99 false 14 2 OsState.initial).1
        = (if OsState.initial.handler 14 = 99 then 2 else OsState.initial.handler 14) ∧
    (JVM_RegisterSignal bsdSignals 99 false 14 2 OsState.initial).2.handler 14
        = (if (2 : Int) = 2 then 99 else 2) ∧
    (JVM_RegisterSignal bsdSignals 99 false 14 7
        (JVM_RegisterSignal bsdSignals 99 false 14 2 OsState.initial).2).1 = 2 ∧
    (JVM_RegisterSignal bsdSignals 99 false 14 2
        (JVM_RegisterSignal bsdSignals 99 false 14 7
          (JVM_RegisterSignal bsdSignals 99 false 14 2 OsState.initial).2).2).1 = 7 ∧
    (JVM_RegisterSignal bsdSignals 99 false 14 2
        (JVM_RegisterSignal bsdSignals 99 false 14 7
          (JVM_RegisterSignal bsdSignals 99 false 14 2 OsState.initial).2).2).2.handler 14
        = (if (2 : Int) = 2 then 99 else 2) :=
  C2_register_round_trip bsdSignals 99 false 14 2 7 OsState.initial
    (by decide) (by decide) (by decide) (by decide)

/-- C3: for a shutdown signal kind (SHUTDOWN1/2/3_SIGNAL), `JVM_RegisterSignal` returns
`(void*)-1` when ReduceSignalUsage is set, otherwise `(void*)1` when the signal is
ignored, in both cases with the state as it was (no `os::signal` call, dispositions
unchanged); only when neither holds it calls `os::signal` once, which installs the new
handler, and returns the previous handler (2 for the user handler). -/
theorem C3_register_shutdown_signal (S : Signals) (hS : S.Distinct) (user_handler : Int)
    (ReduceSignalUsage : Bool) (sig handler : Int) (s : OsState)
    (hsig : sig = S.SHUTDOWN1_SIGNAL ∨ sig = S.SHUTDOWN2_SIGNAL ∨ sig = S.SHUTDOWN3_SIGNAL) :
    JVM_RegisterSignal S user_handler ReduceSignalUsage sig handler s =
      if ReduceSignalUsage = true then (-1, s)
      else if is_sig_ignored s sig = true then (1, s)
      else
        ((if s.handler sig = user_handler then 2 else s.handler sig),
         { handler := fun x =>
             if x = sig then (if handler = 2 then user_handler else handler) else s.handler x,
           calls := s.calls ++
             [OsCall.signal sig (if handler = 2 then user_handler else handler)] }) := by
  have hres := (Signals.Distinct.ne S hS).2.2 sig hsig
  simp only [JVM_RegisterSignal, os_signal, if_neg hres, if_pos hsig]
  split_ifs <;> rfl

/-- Witness of C3: SIGHUP (1) on FreeBSD, ignored by the host. -/
theorem C3_register_shutdown_signal_witness :
    bsdSignals.Distinct ∧
    ((1 : Int) = bsdSignals.SHUTDOWN1_SIGNAL ∨ (1 : Int) = bsdSignals.SHUTDOWN2_SIGNAL
      ∨ (1 : Int) = bsdSignals.SHUTDOWN3_SIGNAL) ∧
    JVM_RegisterSignal bsdSignals 99 false 1 7
        { handler := fun x => if x = 1 then SIG_IGN else 0, calls := [] } =
      if false = true then (-1, { handler := fun x => if x = 1 then SIG_IGN else 0, calls := [] })
      else if is_sig_ignored { handler := fun x => if x = 1 then SIG_IGN else 0, calls := [] } 1
          = true then (1, { handler := fun x => if x = 1 then SIG_IGN else 0, calls := [] })
      else
        ((if (if (1 : Int) = 1 then SIG_IGN else 0) = 99 then 2
            else (if (1 : Int) = 1 then SIG_IGN else 0)),
         { handler := fun x =>
             if x = 1 then (if (7 : Int) = 2 then 99 else 7)
             else (if x = 1 then SIG_IGN else 0),
           calls := [] ++ [OsCall.signal 1 (if (7 : Int) = 2 then 99 else 7)] }) :=
  ⟨by decide, by decide,
   C3_register_shutdown_signal bsdSignals (by decide) 99 false 1 7
     { handler := fun x => if x = 1 then SIG_IGN else 0, calls := [] } (by decide)⟩

/-- C4: `JVM_RaiseSignal(sig)` is suppressed (JNI_FALSE, state as it was, nothing raised)
when ReduceSignalUsage is on and sig is SHUTDOWN1/2/3_SIGNAL or BREAK_SIGNAL, and when
ReduceSignalUsage is off and sig is a shutdown signal that is ignored; in every other
case it calls `os::signal_raise(sig)` and returns JNI_TRUE.  So it returns JNI_TRUE
exactly when it raised the signal. -/
theorem C4_raise_signal (S : Signals) (ReduceSignalUsage : Bool) (sig : Int) (s : OsState) :
    (JVM_RaiseSignal S ReduceSignalUsage sig s =
      if (ReduceSignalUsage = true ∧
            (sig = S.SHUTDOWN1_SIGNAL ∨ sig = S.SHUTDOWN2_SIGNAL ∨
              sig = S.SHUTDOWN3_SIGNAL ∨ sig = S.BREAK_SIGNAL)) ∨
          (ReduceSignalUsage = false ∧
            (sig = S.SHUTDOWN1_SIGNAL ∨ sig = S.SHUTDOWN2_SIGNAL ∨ sig = S.SHUTDOWN3_SIGNAL) ∧
            is_sig_ignored s sig = true)
      then (JNI_FALSE, s)
      else (JNI_TRUE, { s with calls := s.calls ++ [OsCall.signal_raise sig] })) ∧
    ((JVM_RaiseSignal S ReduceSignalUsage sig s).1 = JNI_TRUE ↔
      (JVM_RaiseSignal S ReduceSignalUsage sig s).2.calls
        = s.calls ++ [OsCall.signal_raise sig]) ∧
    ((JVM_RaiseSignal S ReduceSignalUsage sig s).1 = JNI_FALSE ↔
      (JVM_RaiseSignal S ReduceSignalUsage sig s).2.calls = s.calls) := by
  cases ReduceSignalUsage <;>
    simp only [JVM_RaiseSignal, os_signal_raise, JNI_TRUE, JNI_FALSE] <;>
    split_ifs <;> simp_all

/-! ## Properties of the trap handler -/

@[simp] theorem Thread.disable_stack_yellow_zone_is_Java_thread (t : Thread) :
    t.disable_stack_yellow_zone.is_Java_thread = t.is_Java_thread := by
  unfold Thread.disable_stack_yellow_zone
  split <;> rfl

@[simp] theorem Thread.disable_stack_yellow_zone_thread_state (t : Thread) :
    t.disable_stack_yellow_zone.thread_state = t.thread_state := by
  unfold Thread.disable_stack_yellow_zone
  split <;> rfl

@[simp] theorem Thread.disable_stack_yellow_zone_saved_exception_pc (t : Thread) :
    t.disable_stack_yellow_zone.saved_exception_pc = t.saved_exception_pc := by
  unfold Thread.disable_stack_yellow_zone
  split <;> rfl

@[simp] theorem Thread.disable_stack_yellow_zone_pending (t : Thread) :
    t.disable_stack_yellow_zone.pending_unsafe_access_error = t.pending_unsafe_access_error := by
  unfold Thread.disable_stack_yellow_zone
  split <;> rfl

@[simp] theorem Thread.disable_stack_yellow_zone_bounds (t : Thread) (a : Nat) :
    in_stack_bounds t.disable_stack_yellow_zone a = in_stack_bounds t a := by
  unfold Thread.disable_stack_yellow_zone in_stack_bounds
  split <;> rfl

@[simp] theorem Thread.disable_stack_yellow_zone_in_yellow (t : Thread) :
    t.disable_stack_yellow_zone.in_stack_yellow_zone = t.in_stack_yellow_zone := by
  unfold Thread.disable_stack_yellow_zone
  split <;> rfl

theorem Thread.disable_stack_yellow_zone_guard (t : Thread) :
    t.disable_stack_yellow_zone.guard_zone_state =
      if t.guard_zone_state = GuardState.red_disabled then GuardState.red_disabled
      else GuardState.yellow_disabled := by
  unfold Thread.disable_stack_yellow_zone
  split <;> simp_all

@[simp] theorem Thread.disable_stack_yellow_zone_idem (t : Thread) :
    t.disable_stack_yellow_zone.disable_stack_yellow_zone = t.disable_stack_yellow_zone := by
  cases t with
  | mk a b c d g e f h i j k => cases g <;> rfl

/-- A trap on a Java thread with siginfo and context present, not SIGPIPE and not at a
SafeFetch fault pc, is decided by the block "If we are a java thread...". -/
theorem JVM_handle_bsd_signal_java (E : Env) (sig : Int) (si : siginfo_t) (uc : ucontext_t)
    (th : Thread) (b : Int → Bool) (tr : List Event) (abort : Int)
    (hpipe : sig ≠ E.sigs.SIGPIPE)
    (hinst : E.signal_handlers_are_installed = true) (hjava : th.is_Java_thread = true)
    (hsf : ¬ (uc.mc_srr0 ≠ 0 ∧ E.is_safefetch_fault uc.mc_srr0 = true)) :
    JVM_handle_bsd_signal E sig (some si) abort ⟨some uc, some th, b, tr⟩ =
      leave E sig (some si) abort uc.mc_srr0 uc
        (java_thread_block E sig si uc th uc.mc_srr0 ⟨some uc, some th, b, tr⟩) := by
  simp only [JVM_handle_bsd_signal, if_neg hpipe, ucontext_get_pc, if_neg hsf, java_thread,
    hinst, hjava, if_true]

/-- C5, as stated, fails: a SIGBUS (10) on a Java thread in managed code whose fault
address 0xF1800 lies in the yellow zone is not resolved as a stack overflow: with the
pc in compiled code without unsafe access, no chained handler and
abort_if_unrecognized = 1 the handler reaches `report_and_die`, the saved program
counter is unchanged (the StackOverflow continuation is 0x7200) and the yellow zone
stays enabled. -/
theorem C5_yellow_zone_in_Java_counterexample :
    javaThread.is_Java_thread = true ∧
    javaThread.thread_state = JavaThreadState._thread_in_Java ∧
    javaThread.in_stack_yellow_zone 0xF1800 = true ∧
    stack_guard_compensation bsdEnv 0xF1800 = 0xF1800 ∧
    bsdEnv.continuation_for_implicit_exception javaThread.disable_stack_yellow_zone 0x5900
      ImplicitExceptionKind.STACK_OVERFLOW = 0x7200 ∧
    (JVM_handle_bsd_signal bsdEnv 10 (some ⟨0xF1800, 0⟩) 1 (entryState 0x5900 javaThread)).1
      = Exit.report_and_die ∧
    ((JVM_handle_bsd_signal bsdEnv 10 (some ⟨0xF1800, 0⟩) 1
      (entryState 0x5900 javaThread)).2.uc.map fun c => c.mc_srr0) = some 0x5900 ∧
    ((JVM_handle_bsd_signal bsdEnv 10 (some ⟨0xF1800, 0⟩) 1
      (entryState 0x5900 javaThread)).2.thread.map fun t => t.guard_zone_state)
      = some GuardState.normal := by
  decide

/-- C5, amended: for every SIGSEGV on a Java thread (handlers installed, siginfo and
machine context present, pc not a SafeFetch fault pc) whose fault address, after the
FreeBSD guard-page compensation, lies within the stack bounds and in the yellow zone
while the thread is in managed code, and for which the STACK_OVERFLOW continuation is
not null, `JVM_handle_bsd_signal` disables the yellow zone (normal becomes
yellow_disabled), sets the saved program counter to the continuation for
`SharedRuntime::STACK_OVERFLOW`, sets saved_exception_pc to the faulting pc and
returns 1. -/
theorem C5_yellow_zone_in_Java (E : Env) (hS : E.sigs.Distinct) (si : siginfo_t)
    (uc : ucontext_t) (th : Thread) (b : Int → Bool) (tr : List Event) (abort : Int)
    (hinst : E.signal_handlers_are_installed = true) (hjava : th.is_Java_thread = true)
    (hsf : ¬ (uc.mc_srr0 ≠ 0 ∧ E.is_safefetch_fault uc.mc_srr0 = true))
    (hbounds : in_stack_bounds th (stack_guard_compensation E si.si_addr) = true)
    (hyellow : th.in_stack_yellow_zone (stack_guard_compensation E si.si_addr) = true)
    (hstate : th.thread_state = JavaThreadState._thread_in_Java)
    (hstub : E.continuation_for_implicit_exception th.disable_stack_yellow_zone uc.mc_srr0
      ImplicitExceptionKind.STACK_OVERFLOW ≠ 0) :
    JVM_handle_bsd_signal E E.sigs.SIGSEGV (some si) abort ⟨some uc, some th, b, tr⟩ =
      (Exit.returned 1,
       ⟨some { uc with mc_srr0 :=
            (E.continuation_for_implicit_exception th.disable_stack_yellow_zone uc.mc_srr0
              ImplicitExceptionKind.STACK_OVERFLOW) },
        some (th.disable_stack_yellow_zone.set_saved_exception_pc uc.mc_srr0), b,
        tr ++ [Event.continuation_for_implicit_exception uc.mc_srr0
          ImplicitExceptionKind.STACK_OVERFLOW]⟩) ∧
    (th.disable_stack_yellow_zone.set_saved_exception_pc uc.mc_srr0).saved_exception_pc
      = uc.mc_srr0 ∧
    (th.disable_stack_yellow_zone.set_saved_exception_pc uc.mc_srr0).guard_zone_state
      = (if th.guard_zone_state = GuardState.normal then GuardState.yellow_disabled
         else th.guard_zone_state) := by
  refine ⟨?_, rfl, ?_⟩
  · rw [JVM_handle_bsd_signal_java E _ si uc th b tr abort (Signals.Distinct.ne _ hS).1.2.2.2.2
      hinst hjava hsf]
    simp [java_thread_block, stack_overflow_block, hbounds, hyellow, hstate, leave, run_stub,
      hstub, State.log, java_thread, hinst, hjava]
  · cases th with
    | mk a b c d g e f h i j k =>
      cases g <;> simp [Thread.disable_stack_yellow_zone, Thread.set_saved_exception_pc]

/-- Witness of C5: SIGSEGV (11) at 0xF1800, in the yellow zone of a Java thread in managed
code at pc 0x5000. -/
theorem C5_yellow_zone_in_Java_witness :
    (JVM_handle_bsd_signal bsdEnv bsdEnv.sigs.SIGSEGV (some ⟨0xF1800, 0⟩) 1
        ⟨some (contextAt 0x5000), some javaThread, fun _ => false, []⟩).1 = Exit.returned 1 :=
  congrArg Prod.fst
    (C5_yellow_zone_in_Java bsdEnv (by decide) ⟨0xF1800, 0⟩ (contextAt 0x5000) javaThread
      (fun _ => false) [] 1 (by decide) (by decide) (by decide) (by decide) (by decide)
      (by decide) (by decide)).1

/-- C6, as stated, fails: a SIGBUS (10) on a Java thread in native code whose fault
address 0xF1800 lies in the yellow zone is not resumed: with no chained handler and
abort_if_unrecognized = 0 the handler returns 0 (unhandled), and the guard state stays
normal. -/
theorem C6_yellow_zone_not_in_Java_counterexample :
    nativeThread.is_Java_thread = true ∧
    nativeThread.thread_state = JavaThreadState._thread_in_native ∧
    nativeThread.in_stack_yellow_zone 0xF1800 = true ∧
    stack_guard_compensation bsdEnv 0xF1800 = 0xF1800 ∧
    (JVM_handle_bsd_signal bsdEnv 10 (some ⟨0xF1800, 0⟩) 0 (entryState 0x5000 nativeThread)).1
      = Exit.returned 0 ∧
    ((JVM_handle_bsd_signal bsdEnv 10 (some ⟨0xF1800, 0⟩) 0
      (entryState 0x5000 nativeThread)).2.thread.map fun t => t.guard_zone_state)
      = some GuardState.normal := by
  decide

/-- C6, amended: for every SIGSEGV on a Java thread (handlers installed, siginfo and
machine context present, pc not a SafeFetch fault pc) whose fault address, after the
FreeBSD guard-page compensation, lies within the stack bounds and in the yellow zone
while the thread is not in managed code, `JVM_handle_bsd_signal` returns 1 with the
machine context (saved program counter) and saved_exception_pc unchanged; the guard
state afterwards is yellow_disabled (red_disabled if it was so before); and the
handler applied again to the same trap in the resulting state returns 1 and leaves
that state as it is. -/
theorem C6_yellow_zone_not_in_Java (E : Env) (hS : E.sigs.Distinct) (si : siginfo_t)
    (uc : ucontext_t) (th : Thread) (b : Int → Bool) (tr : List Event) (abort : Int)
    (hinst : E.signal_handlers_are_installed = true) (hjava : th.is_Java_thread = true)
    (hsf : ¬ (uc.mc_srr0 ≠ 0 ∧ E.is_safefetch_fault uc.mc_srr0 = true))
    (hbounds : in_stack_bounds th (stack_guard_compensation E si.si_addr) = true)
    (hyellow : th.in_stack_yellow_zone (stack_guard_compensation E si.si_addr) = true)
    (hstate : th.thread_state ≠ JavaThreadState._thread_in_Java) :
    JVM_handle_bsd_signal E E.sigs.SIGSEGV (some si) abort ⟨some uc, some th, b, tr⟩ =
      (Exit.returned 1, ⟨some uc, some th.disable_stack_yellow_zone, b, tr⟩) ∧
    th.disable_stack_yellow_zone.saved_exception_pc = th.saved_exception_pc ∧
    th.disable_stack_yellow_zone.guard_zone_state =
      (if th.guard_zone_state = GuardState.red_disabled then GuardState.red_disabled
       else GuardState.yellow_disabled) ∧
    JVM_handle_bsd_signal E E.sigs.SIGSEGV (some si) abort
        ⟨some uc, some th.disable_stack_yellow_zone, b, tr⟩ =
      (Exit.returned 1, ⟨some uc, some th.disable_stack_yellow_zone, b, tr⟩) := by
  have hpipe := (Signals.Distinct.ne _ hS).1.2.2.2.2
  refine ⟨?_, Thread.disable_stack_yellow_zone_saved_exception_pc th,
    Thread.disable_stack_yellow_zone_guard th, ?_⟩
  · rw [JVM_handle_bsd_signal_java E _ si uc th b tr abort hpipe hinst hjava hsf]
    simp [java_thread_block, stack_overflow_block, hbounds, hyellow, hstate, leave]
  · rw [JVM_handle_bsd_signal_java E _ si uc _ b tr abort hpipe hinst (by simpa using hjava) hsf]
    simp [java_thread_block, stack_overflow_block, hbounds, hyellow, hstate, leave]

/-- Witness of C6: SIGSEGV (11) at 0xF1800, in the yellow zone of a Java thread in native
code. -/
theorem C6_yellow_zone_not_in_Java_witness :
    (JVM_handle_bsd_signal bsdEnv bsdEnv.sigs.SIGSEGV (some ⟨0xF1800, 0⟩) 1
        ⟨some (contextAt 0x5000), some nativeThread, fun _ => false, []⟩).1
      = Exit.returned 1 :=
  congrArg Prod.fst
    (C6_yellow_zone_not_in_Java bsdEnv (by decide) ⟨0xF1800, 0⟩ (contextAt 0x5000)
      nativeThread (fun _ => false) [] 1 (by decide) (by decide) (by decide) (by decide)
      (by decide) (by decide)).1

/-- C7, as stated, fails: a SIGBUS (10) on a Java thread inside the runtime, during an
unsafe access, whose fault address 0xF0800 lies in the red zone (inside the stack
bounds, outside the yellow zone) is resumed: the handler returns 1 with the saved
program counter moved to pc + 4, and the red zone is not disabled. -/
theorem C7_in_stack_not_yellow_counterexample :
    vmStateThread.is_Java_thread = true ∧
    in_stack_bounds vmStateThread 0xF0800 = true ∧
    vmStateThread.in_stack_yellow_zone 0xF0800 = false ∧
    vmStateThread.in_stack_red_zone 0xF0800 = true ∧
    stack_guard_compensation bsdEnv 0xF0800 = 0xF0800 ∧
    (JVM_handle_bsd_signal bsdEnv 10 (some ⟨0xF0800, 0⟩) 1
      (entryState 0x5000 vmStateThread)).1 = Exit.returned 1 ∧
    ((JVM_handle_bsd_signal bsdEnv 10 (some ⟨0xF0800, 0⟩) 1
      (entryState 0x5000 vmStateThread)).2.uc.map fun c => c.mc_srr0) = some 0x5004 ∧
    ((JVM_handle_bsd_signal bsdEnv 10 (some ⟨0xF0800, 0⟩) 1
      (entryState 0x5000 vmStateThread)).2.thread.map fun t => t.guard_zone_state)
      = some GuardState.normal := by
  decide

/-- C7, amended: for every SIGSEGV on a Java thread (handlers installed, siginfo and
machine context present, pc not a SafeFetch fault pc) whose fault address, after the
FreeBSD guard-page compensation, is inside the stack bounds but not in the yellow
zone, `JVM_handle_bsd_signal` reaches `report_and_die`, whatever the execution state,
the chained handler and abort_if_unrecognized are: the chained handler is not called
and the machine context is unchanged; if the address is in the red zone the red zone
is disabled first, and otherwise the thread is unchanged. -/
theorem C7_in_stack_not_yellow (E : Env) (hS : E.sigs.Distinct) (si : siginfo_t)
    (uc : ucontext_t) (th : Thread) (b : Int → Bool) (tr : List Event) (abort : Int)
    (hinst : E.signal_handlers_are_installed = true) (hjava : th.is_Java_thread = true)
    (hsf : ¬ (uc.mc_srr0 ≠ 0 ∧ E.is_safefetch_fault uc.mc_srr0 = true))
    (hbounds : in_stack_bounds th (stack_guard_compensation E si.si_addr) = true)
    (hyellow : th.in_stack_yellow_zone (stack_guard_compensation E si.si_addr) = false) :
    JVM_handle_bsd_signal E E.sigs.SIGSEGV (some si) abort ⟨some uc, some th, b, tr⟩ =
      (Exit.report_and_die,
       ⟨some uc,
        some (if th.in_stack_red_zone (stack_guard_compensation E si.si_addr) = true
          then th.disable_stack_red_zone else th),
        fun x => if x = E.sigs.SIGSEGV then false else b x,
        tr ++ [Event.tty
            (if th.in_stack_red_zone (stack_guard_compensation E si.si_addr) = true
              then "An irrecoverable stack overflow has occurred."
              else "SIGSEGV happened inside stack but outside yellow and red zone."),
          Event.sigprocmask_unblock E.sigs.SIGSEGV,
          Event.VMError_report_and_die E.sigs.SIGSEGV uc.mc_srr0]⟩) ∧
    th.disable_stack_red_zone.guard_zone_state = GuardState.red_disabled := by
  have hpipe := (Signals.Distinct.ne _ hS).1.2.2.2.2
  refine ⟨?_, rfl⟩
  rw [JVM_handle_bsd_signal_java E _ si uc th b tr abort hpipe hinst hjava hsf]
  by_cases hred : th.in_stack_red_zone (stack_guard_compensation E si.si_addr) = true
  · simp [java_thread_block, stack_overflow_block, hbounds, hyellow, hred, leave,
      report_and_die, State.log]
  · simp [java_thread_block, stack_overflow_block, hbounds, hyellow, hred, leave,
      report_and_die, State.log]

/-- Witness of C7: SIGSEGV (11) at 0xF0800, in the red zone of a Java thread in managed
code. -/
theorem C7_in_stack_not_yellow_witness :
    (JVM_handle_bsd_signal bsdEnv bsdEnv.sigs.SIGSEGV (some ⟨0xF0800, 0⟩) 0
        ⟨some (contextAt 0x5000), some javaThread, fun _ => false, []⟩).1
      = Exit.report_and_die :=
  congrArg Prod.fst
    (C7_in_stack_not_yellow bsdEnv (by decide) ⟨0xF0800, 0⟩ (contextAt 0x5000)
      javaThread (fun _ => false) [] 0 (by decide) (by decide) (by decide) (by decide)
      (by decide)).1

/-- C8, as stated, fails: a SIGBUS (10) on a Java thread in managed code whose fault
address 0x20000 is the poll page is not resumed at the safepoint stub: with the pc in
compiled code without unsafe access, no chained handler and abort_if_unrecognized = 1
the handler reaches `report_and_die`, the saved program counter unchanged. -/
theorem C8_poll_page_counterexample :
    javaThread.is_Java_thread = true ∧
    javaThread.thread_state = JavaThreadState._thread_in_Java ∧
    stack_guard_compensation bsdEnv 0x20000 = 0x20000 ∧
    bsdEnv.is_poll_address 0x20000 = true ∧
    bsdEnv.get_poll_stub 0x5900 = 0x7400 ∧
    (JVM_handle_bsd_signal bsdEnv 10 (some ⟨0x20000, 0⟩) 1 (entryState 0x5900 javaThread)).1
      = Exit.report_and_die ∧
    ((JVM_handle_bsd_signal bsdEnv 10 (some ⟨0x20000, 0⟩) 1
      (entryState 0x5900 javaThread)).2.uc.map fun c => c.mc_srr0) = some 0x5900 := by
  decide

/-- C8, amended: for every SIGSEGV on a Java thread in managed code (handlers installed,
siginfo and machine context present, pc not a SafeFetch fault pc) whose fault address,
after the FreeBSD guard-page compensation, is outside the stack bounds and is the
safepoint poll page (`os::is_poll_address`), with a poll stub that is not null,
`JVM_handle_bsd_signal` sets the saved program counter to
`SharedRuntime::get_poll_stub(pc)`, sets saved_exception_pc to pc and returns 1.  Only
SIGSEGV is resolved this way. -/
theorem C8_poll_page (E : Env) (hS : E.sigs.Distinct) (si : siginfo_t)
    (uc : ucontext_t) (th : Thread) (b : Int → Bool) (tr : List Event) (abort : Int)
    (hinst : E.signal_handlers_are_installed = true) (hjava : th.is_Java_thread = true)
    (hsf : ¬ (uc.mc_srr0 ≠ 0 ∧ E.is_safefetch_fault uc.mc_srr0 = true))
    (hstate : th.thread_state = JavaThreadState._thread_in_Java)
    (hbounds : in_stack_bounds th (stack_guard_compensation E si.si_addr) = false)
    (hpoll : E.is_poll_address (stack_guard_compensation E si.si_addr) = true)
    (hstub : E.get_poll_stub uc.mc_srr0 ≠ 0) :
    JVM_handle_bsd_signal E E.sigs.SIGSEGV (some si) abort ⟨some uc, some th, b, tr⟩ =
      (Exit.returned 1,
       ⟨some { uc with mc_srr0 := E.get_poll_stub uc.mc_srr0 },
        some (th.set_saved_exception_pc uc.mc_srr0), b,
        tr ++ (if E.TraceTraps = true
          then [Event.tty "trap: safepoint_poll at %p (SIGSEGV)"] else [])⟩) := by
  obtain ⟨⟨_, _, _, _, hSP⟩, ⟨_, _, _, _, _, _, _, hSI, hST⟩, _⟩ := Signals.Distinct.ne _ hS
  rw [JVM_handle_bsd_signal_java E _ si uc th b tr abort hSP hinst hjava hsf]
  cases hT : E.TraceTraps <;>
    simp [java_thread_block, in_Java_block, hbounds, hstate, hpoll, hSI, hST, leave, run_stub,
      hstub, State.log, State.trace_trap, java_thread, hinst, hjava, hT]

/-- Witness of C8: SIGSEGV (11) at the poll page 0x20000, Java thread in managed code at
pc 0x5900. -/
theorem C8_poll_page_witness :
    JVM_handle_bsd_signal bsdEnv bsdEnv.sigs.SIGSEGV (some ⟨0x20000, 0⟩) 1
        ⟨some (contextAt 0x5900), some javaThread, fun _ => false, []⟩ =
      (Exit.returned 1,
       ⟨some { contextAt 0x5900 with mc_srr0 := bsdEnv.get_poll_stub (contextAt 0x5900).mc_srr0 },
        some (javaThread.set_saved_exception_pc (contextAt 0x5900).mc_srr0), fun _ => false,
        [] ++ (if bsdEnv.TraceTraps = true
          then [Event.tty "trap: safepoint_poll at %p (SIGSEGV)"] else [])⟩) :=
  C8_poll_page bsdEnv (by decide) ⟨0x20000, 0⟩ (contextAt 0x5900) javaThread
    (fun _ => false) [] 1 (by decide) (by decide) (by decide) (by decide) (by decide)
    (by decide) (by decide)

/-- C9, as stated, fails: a SIGFPE (8) on a Java thread in managed code, siginfo and
machine context present, at a pc (0x5004) for which the runtime has no
division-by-zero continuation, is not delivered as an exception: with no chained
handler and abort_if_unrecognized = 1 the handler reaches `report_and_die`. -/
theorem C9_sigfpe_in_Java_counterexample :
    javaThread.is_Java_thread = true ∧
    javaThread.thread_state = JavaThreadState._thread_in_Java ∧
    bsdEnv.is_safefetch_fault 0x5004 = false ∧
    bsdEnv.continuation_for_implicit_exception javaThread 0x5004
      ImplicitExceptionKind.IMPLICIT_DIVIDE_BY_ZERO = 0 ∧
    (JVM_handle_bsd_signal bsdEnv 8 (some ⟨0x5004, 0⟩) 1 (entryState 0x5004 javaThread)).1
      = Exit.report_and_die ∧
    ((JVM_handle_bsd_signal bsdEnv 8 (some ⟨0x5004, 0⟩) 1
      (entryState 0x5004 javaThread)).2.uc.map fun c => c.mc_srr0) = some 0x5004 := by
  decide

/-- C9, amended: for every SIGFPE on a Java thread in managed code (handlers installed,
siginfo and machine context present, pc not a SafeFetch fault pc), whatever the
siginfo subcode is, `JVM_handle_bsd_signal` requests the continuation for
`SharedRuntime::IMPLICIT_DIVIDE_BY_ZERO` at the faulting pc; when that continuation
is not null it sets the saved program counter to it, sets saved_exception_pc to pc
and returns 1, without calling the chained handler and without reaching
`report_and_die`. -/
theorem C9_sigfpe_in_Java (E : Env) (hS : E.sigs.Distinct) (si : siginfo_t)
    (uc : ucontext_t) (th : Thread) (b : Int → Bool) (tr : List Event) (abort : Int)
    (hinst : E.signal_handlers_are_installed = true) (hjava : th.is_Java_thread = true)
    (hsf : ¬ (uc.mc_srr0 ≠ 0 ∧ E.is_safefetch_fault uc.mc_srr0 = true))
    (hstate : th.thread_state = JavaThreadState._thread_in_Java)
    (hstub : E.continuation_for_implicit_exception th uc.mc_srr0
      ImplicitExceptionKind.IMPLICIT_DIVIDE_BY_ZERO ≠ 0) :
    JVM_handle_bsd_signal E E.sigs.SIGFPE (some si) abort ⟨some uc, some th, b, tr⟩ =
      (Exit.returned 1,
       ⟨some { uc with mc_srr0 :=
          (E.continuation_for_implicit_exception th uc.mc_srr0
            ImplicitExceptionKind.IMPLICIT_DIVIDE_BY_ZERO) },
        some (th.set_saved_exception_pc uc.mc_srr0), b,
        tr ++ (if E.TraceTraps = true
            then [Event.tty "Fix SIGFPE handler, trying divide by zero handler."] else [])
          ++ [Event.continuation_for_implicit_exception uc.mc_srr0
            ImplicitExceptionKind.IMPLICIT_DIVIDE_BY_ZERO]⟩) := by
  obtain ⟨⟨_, _, hFP, _, _⟩, ⟨hFI, hFT, hFS, _, _, _, _, _, _⟩, _⟩ := Signals.Distinct.ne _ hS
  rw [JVM_handle_bsd_signal_java E _ si uc th b tr abort hFP hinst hjava hsf]
  cases hT : E.TraceTraps <;>
    simp [java_thread_block, in_Java_block, hstate, hFI, hFT, hFS, leave, run_stub,
      hstub, State.log, State.trace_trap, java_thread, hinst, hjava, hT]

/-- Witness of C9: SIGFPE (8) on a Java thread in managed code at pc 0x5000, where a
division-by-zero continuation exists. -/
theorem C9_sigfpe_in_Java_witness :
    (JVM_handle_bsd_signal bsdEnv bsdEnv.sigs.SIGFPE (some ⟨0x5000, 7⟩) 1
        ⟨some (contextAt 0x5000), some javaThread, fun _ => false, []⟩).1
      = Exit.returned 1 :=
  congrArg Prod.fst
    (C9_sigfpe_in_Java bsdEnv (by decide) ⟨0x5000, 7⟩ (contextAt 0x5000) javaThread
      (fun _ => false) [] 1 (by decide) (by decide) (by decide) (by decide) (by decide))

/-- C10, as stated, fails: a SIGSEGV (11) on a Java thread in managed code whose pc 0x5000
lies in compiled code with unsafe access (fault address 0x9000, outside the stack, not
the poll page, not the serialize page, no implicit null check) is not skipped: with no
chained handler and abort_if_unrecognized = 1 the handler reaches `report_and_die`
with the saved program counter unchanged and pending_unsafe_access_error not set. -/
theorem C10_unsafe_access_counterexample :
    javaThread.is_Java_thread = true ∧
    (bsdEnv.find_blob_unsafe 0x5000).map (fun cb => cb.is_nmethod && cb.has_unsafe_access)
      = some true ∧
    (JVM_handle_bsd_signal bsdEnv 11 (some ⟨0x9000, 0⟩) 1 (entryState 0x5000 javaThread)).1
      = Exit.report_and_die ∧
    ((JVM_handle_bsd_signal bsdEnv 11 (some ⟨0x9000, 0⟩) 1
      (entryState 0x5000 javaThread)).2.uc.map fun c => c.mc_srr0) = some 0x5000 ∧
    ((JVM_handle_bsd_signal bsdEnv 11 (some ⟨0x9000, 0⟩) 1
      (entryState 0x5000 javaThread)).2.thread.map fun t => t.pending_unsafe_access_error)
      = some false := by
  decide

/-- C10, amended: for every SIGBUS (bus error) on a Java thread (handlers installed,
siginfo and machine context present, pc not a SafeFetch fault pc), when either the
thread is in managed code and the pc lies in compiled code with unsafe access, or the
thread is inside the runtime during an unsafe access, `JVM_handle_bsd_signal` sets
pending_unsafe_access_error, sets the saved program counter to pc + 4 (in 64-bit
pointer arithmetic) and returns 1, leaving saved_exception_pc and the guard zone
state unchanged.  A segmentation fault is not resolved this way. -/
theorem C10_unsafe_access (E : Env) (hS : E.sigs.Distinct) (si : siginfo_t)
    (uc : ucontext_t) (th : Thread) (b : Int → Bool) (tr : List Event) (abort : Int)
    (hinst : E.signal_handlers_are_installed = true) (hjava : th.is_Java_thread = true)
    (hsf : ¬ (uc.mc_srr0 ≠ 0 ∧ E.is_safefetch_fault uc.mc_srr0 = true))
    (hregion :
      (th.thread_state = JavaThreadState._thread_in_Java ∧
        ∃ cb, E.find_blob_unsafe uc.mc_srr0 = some cb ∧ cb.is_nmethod = true ∧
          cb.has_unsafe_access = true) ∨
      (th.thread_state = JavaThreadState._thread_in_vm ∧ th.doing_unsafe_access = true)) :
    JVM_handle_bsd_signal E E.sigs.SIGBUS (some si) abort ⟨some uc, some th, b, tr⟩ =
      (Exit.returned 1,
       ⟨some { uc with mc_srr0 := (uc.mc_srr0 + 4) % 2 ^ 64 },
        some th.set_pending_unsafe_access_error, b, tr⟩) ∧
    th.set_pending_unsafe_access_error.pending_unsafe_access_error = true ∧
    th.set_pending_unsafe_access_error.saved_exception_pc = th.saved_exception_pc ∧
    th.set_pending_unsafe_access_error.guard_zone_state = th.guard_zone_state := by
  obtain ⟨⟨_, _, _, hBP, _⟩, ⟨_, _, _, hBI, hBT, hBS, hBF, _, _⟩, _⟩ := Signals.Distinct.ne _ hS
  refine ⟨?_, rfl, rfl, rfl⟩
  rw [JVM_handle_bsd_signal_java E _ si uc th b tr abort hBP hinst hjava hsf]
  rcases hregion with ⟨hst, cb, hcb, hnm, hua⟩ | ⟨hst, hua⟩
  · simp [java_thread_block, in_Java_block, hst, hBI, hBT, hBS, hBF, hcb, hnm, hua, leave,
      ptr_add4, WORD]
  · simp [java_thread_block, not_in_Java_block, hst, hBI, hBS, hua, leave, ptr_add4, WORD]

/-- Witness of C10: SIGBUS (10) on a Java thread in managed code at pc 0x5000, inside
compiled code with unsafe access. -/
theorem C10_unsafe_access_witness :
    (JVM_handle_bsd_signal bsdEnv bsdEnv.sigs.SIGBUS (some ⟨0x9000, 0⟩) 1
        ⟨some (contextAt 0x5000), some javaThread, fun _ => false, []⟩).1
      = Exit.returned 1 :=
  congrArg Prod.fst
    (C10_unsafe_access bsdEnv (by decide) ⟨0x9000, 0⟩ (contextAt 0x5000) javaThread
      (fun _ => false) [] 1 (by decide) (by decide) (by decide)
      (Or.inl ⟨by decide, ⟨true, true⟩, by decide, by decide, by decide⟩)).1

/-- C11, as stated, fails: a SIGSEGV (11) with the siginfo absent, the machine context
present and its pc (0x4000) a SafeFetch fault pc is not delegated to the chain: the
handler moves the saved program counter to the SafeFetch continuation 0x4010 and
returns 1 without calling the chained handler. -/
theorem C11_missing_context_counterexample :
    (11 : Int) ≠ bsdEnv.sigs.SIGPIPE ∧
    (JVM_handle_bsd_signal bsdEnv 11 none 1 (entryState 0x4000 javaThread)).1
      = Exit.returned 1 ∧
    ((JVM_handle_bsd_signal bsdEnv 11 none 1
      (entryState 0x4000 javaThread)).2.uc.map fun c => c.mc_srr0) = some 0x4010 ∧
    (JVM_handle_bsd_signal bsdEnv 11 none 1 (entryState 0x4000 javaThread)).2.trace = [] := by
  decide

/-- C11, amended: for every signal other than SIGPIPE, when the context is absent or its
pc is not a SafeFetch fault pc: whenever the siginfo is absent, or the machine context
is absent, or the handlers are not installed, or the current thread is null or neither
a Java thread nor the VM thread, `JVM_handle_bsd_signal` goes to the chained handler
at once.  The machine context, the thread and the blocked set are left as they were
up to that call, and the outcome depends on the chained handler and
abort_if_unrecognized only: 1 if the chain accepts, otherwise 0 if
abort_if_unrecognized is 0, otherwise `report_and_die`. -/
theorem C11_missing_context_delegates (E : Env) (sig : Int) (info : Option siginfo_t)
    (abort : Int) (s : State)
    (hpipe : sig ≠ E.sigs.SIGPIPE)
    (hsf : ∀ uc, s.uc = some uc →
      ¬ (uc.mc_srr0 ≠ 0 ∧ E.is_safefetch_fault uc.mc_srr0 = true))
    (hmissing : info = none ∨ s.uc = none ∨ E.signal_handlers_are_installed = false ∨
      s.thread = none ∨
      ∃ t, s.thread = some t ∧ t.is_Java_thread = false ∧ t.is_VM_thread = false) :
    JVM_handle_bsd_signal E sig info abort s =
      (if E.chained_handler sig info s.uc = true then
        (Exit.returned 1, { s with trace := s.trace ++ [Event.chained_handler sig] })
      else if abort = 0 then
        (Exit.returned 0, { s with trace := s.trace ++ [Event.chained_handler sig] })
      else
        (Exit.report_and_die,
         { s with
           blocked := fun x => if x = sig then false else s.blocked x,
           trace := s.trace ++ [Event.chained_handler sig, Event.sigprocmask_unblock sig,
             Event.VMError_report_and_die sig
               (match s.uc with
                | some uc => uc.mc_srr0
                | none => 0)] })) := by
  obtain ⟨suc, sth, b, tr⟩ := s
  have hchain : ∀ pc, run_chained_handler E sig info abort pc ⟨suc, sth, b, tr⟩ =
      (if E.chained_handler sig info suc = true then
        (Exit.returned 1, ⟨suc, sth, b, tr ++ [Event.chained_handler sig]⟩)
      else if abort = 0 then
        (Exit.returned 0, ⟨suc, sth, b, tr ++ [Event.chained_handler sig]⟩)
      else
        (Exit.report_and_die,
         ⟨suc, sth, fun x => if x = sig then false else b x,
          tr ++ [Event.chained_handler sig, Event.sigprocmask_unblock sig,
             Event.VMError_report_and_die sig pc]⟩)) := by
    intro pc
    simp only [run_chained_handler, report_and_die, State.log]
    split_ifs <;> simp
  cases suc with
  | none => simp only [JVM_handle_bsd_signal, if_neg hpipe, hchain]
  | some uc =>
    have hsf' := hsf uc rfl
    cases info with
    | none =>
      cases hj : java_thread E sth <;>
        simp only [JVM_handle_bsd_signal, if_neg hpipe, ucontext_get_pc, if_neg hsf', hj, hchain]
    | some si =>
      have hj : java_thread E sth = none ∧ vm_thread E sth = false := by
        rcases hmissing with h | h | h | h | ⟨t, ht, hjv, hvm⟩
        · simp at h
        · simp at h
        · simp [java_thread, vm_thread, h]
        · simp only at h
          simp [java_thread, vm_thread, h]
        · simp only at ht
          simp [java_thread, vm_thread, ht, hjv, hvm]
      simp only [JVM_handle_bsd_signal, if_neg hpipe, ucontext_get_pc, if_neg hsf', hj.1, hj.2,
        hchain]
      simp

/-- Witness of C11: SIGSEGV (11) with the siginfo absent, context at pc 0x5000, no
chained handler, abort_if_unrecognized = 0. -/
theorem C11_missing_context_delegates_witness :
    (JVM_handle_bsd_signal bsdEnv 11 none 0 (entryState 0x5000 javaThread)).1
      = Exit.returned 0 :=
  (congrArg Prod.fst
    (C11_missing_context_delegates bsdEnv 11 none 0 (entryState 0x5000 javaThread)
      (by decide) (by intro uc h; cases h; decide) (Or.inl rfl))).trans (by decide)

/-- C18: for SIGPIPE `JVM_handle_bsd_signal` always returns 1, whether or not the chained
handler accepts, whatever the thread, its execution state, the siginfo, the machine
context and abort_if_unrecognized are; apart from calling the chained handler (and
printing a warning under PrintMiscellaneous) it changes nothing: the machine context
(saved program counter), the thread and the blocked set are as they were, and
`report_and_die` is not reached. -/
theorem C18_sigpipe_ignored (E : Env) (info : Option siginfo_t) (abort : Int) (s : State) :
    JVM_handle_bsd_signal E E.sigs.SIGPIPE info abort s =
      (Exit.returned 1,
       { s with trace := s.trace ++ [Event.chained_handler E.sigs.SIGPIPE] ++
           (if E.chained_handler E.sigs.SIGPIPE info s.uc = false ∧
               E.PrintMiscellaneous = true ∧ (E.WizardMode = true ∨ E.Verbose = true)
            then [Event.warning "Ignoring SIGPIPE - see bug 4229104"] else []) }) ∧
    (JVM_handle_bsd_signal E E.sigs.SIGPIPE info abort s).2.uc = s.uc ∧
    (JVM_handle_bsd_signal E E.sigs.SIGPIPE info abort s).2.thread = s.thread ∧
    (JVM_handle_bsd_signal E E.sigs.SIGPIPE info abort s).2.blocked = s.blocked := by
  simp only [JVM_handle_bsd_signal, State.log, if_true]
  cases E.chained_handler E.sigs.SIGPIPE info s.uc <;> cases E.PrintMiscellaneous <;>
    cases E.WizardMode <;> cases E.Verbose <;> simp

/-! ## What the blocks of the handler leave unchanged -/

@[simp] theorem State.log_uc (s : State) (e : Event) : (s.log e).uc = s.uc := rfl

@[simp] theorem State.log_thread (s : State) (e : Event) : (s.log e).thread = s.thread := rfl

@[simp] theorem State.log_blocked (s : State) (e : Event) : (s.log e).blocked = s.blocked := rfl

@[simp] theorem State.trace_trap_uc (s : State) (E : Env) (m : String) :
    (s.trace_trap E m).uc = s.uc := by
  unfold State.trace_trap
  split <;> rfl

@[simp] theorem State.trace_trap_thread (s : State) (E : Env) (m : String) :
    (s.trace_trap E m).thread = s.thread := by
  unfold State.trace_trap
  split <;> rfl

@[simp] theorem State.trace_trap_blocked (s : State) (E : Env) (m : String) :
    (s.trace_trap E m).blocked = s.blocked := by
  unfold State.trace_trap
  split <;> rfl

theorem Frame.ite {E : Env} {sig : Int} {uc : ucontext_t} {th : Thread} {pc : Nat}
    {b : Int → Bool} {tr : List Event} (c : Prop) [Decidable c] (x y : Flow × State)
    (hx : c → Frame E sig uc th pc b tr x) (hy : ¬ c → Frame E sig uc th pc b tr y) :
    Frame E sig uc th pc b tr (if c then x else y) := by
  split
  · exact hx ‹_›
  · exact hy ‹_›

theorem in_Java_block_frame (E : Env) (sig : Int) (si : siginfo_t) (uc : ucontext_t)
    (th : Thread) (pc addr : Nat) (b : Int → Bool) (tr : List Event)
    (hst : th.thread_state = JavaThreadState._thread_in_Java) :
    Frame E sig uc th pc b tr
      (in_Java_block E sig si uc th pc addr ⟨some uc, some th, b, tr⟩) := by
  unfold in_Java_block
  repeat' (refine Frame.ite _ _ _ (fun hc => ?_) (fun hc => ?_))
  all_goals first
    | (simp [Frame]; done)
    | skip
  cases hcb : E.find_blob_unsafe pc with
  | none => simp [Frame]
  | some cb =>
    dsimp only
    refine Frame.ite _ _ _ (fun hc2 => ?_) (fun _ => ?_)
    · exact ⟨rfl, fun k hk => by cases hk; rfl,
        Or.inr ⟨hc, Or.inl ⟨hst, cb, hcb, hc2.1, hc2.2⟩, rfl⟩⟩
    · simp [Frame]

theorem not_in_Java_block_frame (E : Env) (sig : Int) (uc : ucontext_t)
    (th : Thread) (pc : Nat) (b : Int → Bool) (tr : List Event) :
    Frame E sig uc th pc b tr
      (not_in_Java_block E sig uc th pc ⟨some uc, some th, b, tr⟩) := by
  unfold not_in_Java_block
  refine Frame.ite _ _ _ (fun _ => ?_) (fun _ => ?_)
  · simp [Frame]
  · refine Frame.ite _ _ _ (fun hc => ?_) (fun _ => ?_)
    · exact ⟨rfl, fun k hk => by cases hk; rfl,
        Or.inr ⟨hc.2.1, Or.inr ⟨hc.1, hc.2.2⟩, rfl⟩⟩
    · simp [Frame]

theorem stack_overflow_block_frame (E : Env) (sig : Int) (uc : ucontext_t)
    (th : Thread) (pc addr : Nat) (b : Int → Bool) (tr : List Event) :
    Frame E sig uc th pc b tr
      (stack_overflow_block E th pc addr ⟨some uc, some th, b, tr⟩) := by
  unfold stack_overflow_block
  dsimp only
  repeat' (refine Frame.ite _ _ _ (fun hc => ?_) (fun hc => ?_))
  all_goals simp [Frame, Thread.disable_stack_red_zone]

theorem java_thread_block_frame (E : Env) (sig : Int) (si : siginfo_t) (uc : ucontext_t)
    (th : Thread) (pc : Nat) (b : Int → Bool) (tr : List Event) :
    Frame E sig uc th pc b tr
      (java_thread_block E sig si uc th pc ⟨some uc, some th, b, tr⟩) := by
  unfold java_thread_block
  dsimp only
  refine Frame.ite _ _ _ (fun _ => stack_overflow_block_frame E sig uc th pc _ b tr)
    (fun _ => ?_)
  have h0 : Frame E sig uc th pc b tr
      (if th.thread_state = JavaThreadState._thread_in_Java then
        in_Java_block E sig si uc th pc (stack_guard_compensation E si.si_addr)
          ⟨some uc, some th, b, tr⟩
      else not_in_Java_block E sig uc th pc ⟨some uc, some th, b, tr⟩) :=
    Frame.ite _ _ _ (fun hst => in_Java_block_frame E sig si uc th pc _ b tr hst)
      (fun _ => not_in_Java_block_frame E sig uc th pc b tr)
  generalize (if th.thread_state = JavaThreadState._thread_in_Java then
        in_Java_block E sig si uc th pc (stack_guard_compensation E si.si_addr)
          ⟨some uc, some th, b, tr⟩
      else not_in_Java_block E sig uc th pc ⟨some uc, some th, b, tr⟩) = r0 at h0 ⊢
  obtain ⟨f, s1⟩ := r0
  cases f with
  | next stub =>
    dsimp only
    obtain ⟨hb, -, h3⟩ := h0
    rcases h3 with h3 | ⟨-, -, h3⟩
    · refine Frame.ite _ _ _ (fun _ => ?_) (fun _ => ?_)
      · refine ⟨hb, ?_, Or.inl h3⟩
        intro k hk
        cases hk
        rfl
      · refine ⟨hb, ?_, Or.inl h3⟩
        intro k hk
        cases hk
    · cases h3
  | _ => exact h0

/-! ## Properties of the fallback and of the fatal path -/

theorem java_thread_eq_some (E : Env) (t : Option Thread) (th : Thread)
    (h : java_thread E t = some th) :
    t = some th ∧ th.is_Java_thread = true ∧ E.signal_handlers_are_installed = true := by
  unfold java_thread at h
  cases hi : E.signal_handlers_are_installed <;> simp only [hi] at h
  · simp at h
  · cases t with
    | none => simp at h
    | some t0 =>
      by_cases hj : t0.is_Java_thread = true
      · simp only [hj, if_true, Option.some.injEq] at h
        subst h
        simp [hj]
      · simp [hj] at h

theorem run_chained_handler_eq (E : Env) (sig : Int) (info : Option siginfo_t) (abort : Int)
    (pc : Nat) (s : State) :
    run_chained_handler E sig info abort pc s =
      (if E.chained_handler sig info s.uc = true then
        (Exit.returned 1, { s with trace := s.trace ++ [Event.chained_handler sig] })
      else if abort = 0 then
        (Exit.returned 0, { s with trace := s.trace ++ [Event.chained_handler sig] })
      else
        (Exit.report_and_die,
         { s with
           blocked := fun x => if x = sig then false else s.blocked x,
           trace := s.trace ++ [Event.chained_handler sig, Event.sigprocmask_unblock sig,
             Event.VMError_report_and_die sig pc] })) := by
  simp only [run_chained_handler, report_and_die, State.log]
  split_ifs <;> simp

/-- Whatever label a block leaves to: if the handler ends in `report_and_die`, the
signal has been removed from the blocked set, nothing else in it has changed, and the
trace ends with the unblocking followed by the call of `VMError::report_and_die`. -/
theorem leave_died (E : Env) (sig : Int) (info : Option siginfo_t) (abort : Int) (pc : Nat)
    (uc : ucontext_t) (r0 : Flow × State) (b : Int → Bool) (hb : r0.2.blocked = b)
    (h : (leave E sig info abort pc uc r0).1 = Exit.report_and_die) :
    (leave E sig info abort pc uc r0).2.blocked = (fun x => if x = sig then false else b x) ∧
    ∃ pre, (leave E sig info abort pc uc r0).2.trace =
      pre ++ [Event.sigprocmask_unblock sig, Event.VMError_report_and_die sig pc] := by
  obtain ⟨f, s1⟩ := r0
  simp only at hb
  subst hb
  cases f with
  | run_stub stub =>
    simp only [leave, run_stub, run_chained_handler_eq] at h ⊢
    split_ifs at h ⊢
    simp_all
    exact ⟨s1.trace ++ [Event.chained_handler sig], by simp⟩
  | next stub =>
    simp only [leave, run_stub, run_chained_handler_eq] at h ⊢
    split_ifs at h ⊢
    simp_all
    exact ⟨s1.trace ++ [Event.chained_handler sig], by simp⟩
  | report_and_die =>
    exact ⟨by simp [leave, report_and_die], s1.trace, by simp [leave, report_and_die]⟩
  | ret k => simp [leave] at h
  | null_dereference => simp [leave] at h

/-- The handler for a signal other than SIGPIPE, by cases on what it was handed. -/
theorem JVM_handle_bsd_signal_eq (E : Env) (sig : Int) (info : Option siginfo_t) (abort : Int)
    (suc : Option ucontext_t) (sth : Option Thread) (b : Int → Bool) (tr : List Event)
    (hpipe : sig ≠ E.sigs.SIGPIPE) :
    JVM_handle_bsd_signal E sig info abort ⟨suc, sth, b, tr⟩ =
      match suc with
      | none => run_chained_handler E sig info abort 0 ⟨none, sth, b, tr⟩
      | some uc =>
        if uc.mc_srr0 ≠ 0 ∧ E.is_safefetch_fault uc.mc_srr0 = true then
          (Exit.returned 1,
           ⟨some { uc with mc_srr0 := E.continuation_for_safefetch_fault uc.mc_srr0 }, sth, b,
            tr⟩)
        else
          match info, java_thread E sth with
          | some si, some th =>
            leave E sig (some si) abort uc.mc_srr0 uc
              (java_thread_block E sig si uc th uc.mc_srr0 ⟨some uc, some th, b, tr⟩)
          | _, _ => run_chained_handler E sig info abort uc.mc_srr0 ⟨some uc, sth, b, tr⟩ := by
  cases suc with
  | none => simp only [JVM_handle_bsd_signal, if_neg hpipe]
  | some uc =>
    simp only [JVM_handle_bsd_signal, if_neg hpipe, ucontext_get_pc]
    split
    · rfl
    · cases info with
      | none => cases hj : java_thread E sth <;> rfl
      | some si =>
        cases hj : java_thread E sth with
        | none =>
          simp only [run_stub]
          split <;> simp
        | some th =>
          obtain ⟨h1, -, -⟩ := java_thread_eq_some E sth th hj
          subst h1
          rfl

/-- C15: on entry of the fatal error path for signal sig, whatever the blocked set M
was, it becomes M without sig before the report is built: sig is not blocked, the
status of every other signal is as before, and the unblocking is the last step before
`VMError::report_and_die`.  This holds for `crash_handler` and for every run of
`JVM_handle_bsd_signal` that ends in `report_and_die`. -/
theorem C15_fatal_path_unblocks_signal (E : Env) (sig : Int) (info : Option siginfo_t)
    (abort : Int) (s : State) :
    ((crash_handler sig s).1 = Exit.report_and_die ∧
      (crash_handler sig s).2.blocked sig = false ∧
      (∀ x, x ≠ sig → (crash_handler sig s).2.blocked x = s.blocked x) ∧
      (crash_handler sig s).2.trace =
        s.trace ++ [Event.sigprocmask_unblock sig, Event.VMError_report_and_die sig 0]) ∧
    ((JVM_handle_bsd_signal E sig info abort s).1 = Exit.report_and_die →
      (JVM_handle_bsd_signal E sig info abort s).2.blocked sig = false ∧
      (∀ x, x ≠ sig → (JVM_handle_bsd_signal E sig info abort s).2.blocked x = s.blocked x) ∧
      ∃ pre pc, (JVM_handle_bsd_signal E sig info abort s).2.trace =
        pre ++ [Event.sigprocmask_unblock sig, Event.VMError_report_and_die sig pc]) := by
  refine ⟨⟨rfl, by simp [crash_handler], fun x hx => by simp [crash_handler, hx], rfl⟩, ?_⟩
  obtain ⟨suc, sth, b, tr⟩ := s
  have key : ∀ r : Exit × State,
      (r.2.blocked = (fun x => if x = sig then false else b x) ∧
        ∃ pre pc, r.2.trace =
          pre ++ [Event.sigprocmask_unblock sig, Event.VMError_report_and_die sig pc]) →
      r.2.blocked sig = false ∧ (∀ x, x ≠ sig → r.2.blocked x = b x) ∧
        ∃ pre pc, r.2.trace =
          pre ++ [Event.sigprocmask_unblock sig, Event.VMError_report_and_die sig pc] := by
    rintro r ⟨h1, h2⟩
    refine ⟨by simp [h1], fun x hx => by simp [h1, hx], h2⟩
  have hchain : ∀ pc (s1 : State), s1.blocked = b →
      (run_chained_handler E sig info abort pc s1).1 = Exit.report_and_die →
      (run_chained_handler E sig info abort pc s1).2.blocked
          = (fun x => if x = sig then false else b x) ∧
        ∃ pre pc0, (run_chained_handler E sig info abort pc s1).2.trace =
          pre ++ [Event.sigprocmask_unblock sig, Event.VMError_report_and_die sig pc0] := by
    intro pc s1 hb
    subst hb
    rw [run_chained_handler_eq]
    split_ifs <;> simp
    exact ⟨s1.trace ++ [Event.chained_handler sig], pc, by simp⟩
  by_cases hpipe : sig = E.sigs.SIGPIPE
  · subst hpipe
    simp only [JVM_handle_bsd_signal, if_true]
    split_ifs <;> simp
  · rw [JVM_handle_bsd_signal_eq E sig info abort suc sth b tr hpipe]
    intro hdie
    apply key
    cases suc with
    | none => exact hchain 0 _ rfl hdie
    | some uc =>
      simp only at hdie ⊢
      split at hdie
      · simp at hdie
      · rename_i hsf
        rw [if_neg hsf]
        cases info with
        | none => exact hchain _ _ rfl hdie
        | some si =>
          cases hj : java_thread E sth with
          | none =>
            simp only [hj] at hdie
            exact hchain _ _ rfl hdie
          | some th =>
            simp only [hj] at hdie
            obtain ⟨h1, h2⟩ := leave_died E sig (some si) abort uc.mc_srr0 uc _ b
              (java_thread_block_frame E sig si uc th uc.mc_srr0 b tr).1 hdie
            exact ⟨h1, h2.elim fun pre hp => ⟨pre, _, hp⟩⟩

/-- The fallback seen from a block of a Java thread: when the block ends at `run_stub`
with a null stub the handler continues as `run_chained_handler` in the state reached,
with the machine context still the one handed in; and the handler returns 0 only
from there. -/
theorem leave_fallback (E : Env) (sig : Int) (info : Option siginfo_t) (abort : Int)
    (pc : Nat) (uc : ucontext_t) (th : Thread) (b : Int → Bool) (tr : List Event)
    (r0 : Flow × State) (hF : Frame E sig uc th pc b tr r0) :
    (∀ s1, (match r0 with
        | (Flow.run_stub stub, s1) => if stub = 0 then some s1 else none
        | (Flow.next stub, s1) => if stub = 0 then some s1 else none
        | _ => none) = some s1 →
      s1.uc = some uc ∧
      leave E sig info abort pc uc r0 = run_chained_handler E sig info abort pc s1) ∧
    ((leave E sig info abort pc uc r0).1 = Exit.returned 0 →
      (∃ s1, (match r0 with
        | (Flow.run_stub stub, s1) => if stub = 0 then some s1 else none
        | (Flow.next stub, s1) => if stub = 0 then some s1 else none
        | _ => none) = some s1) ∧
      E.chained_handler sig info (some uc) = false ∧ abort = 0) := by
  obtain ⟨f, s0⟩ := r0
  obtain ⟨-, hk, h3⟩ := hF
  cases f with
  | run_stub stub =>
    have huc : s0.uc = some uc := by
      rcases h3 with h3 | ⟨-, -, h3⟩
      · exact h3.1
      · cases h3
    by_cases hs : stub = 0
    · subst hs
      simp only [leave, run_stub, run_chained_handler_eq, huc]
      refine ⟨fun s1 h1 => ?_, fun h0 => ?_⟩
      · simp at h1
        subst h1
        simp [huc]
      · split_ifs at h0 <;> simp_all
    · simp [leave, run_stub, hs]
  | next stub =>
    have huc : s0.uc = some uc := by
      rcases h3 with h3 | ⟨-, -, h3⟩
      · exact h3.1
      · cases h3
    by_cases hs : stub = 0
    · subst hs
      simp only [leave, run_stub, run_chained_handler_eq, huc]
      refine ⟨fun s1 h1 => ?_, fun h0 => ?_⟩
      · simp at h1
        subst h1
        simp [huc]
      · split_ifs at h0 <;> simp_all
    · simp [leave, run_stub, hs]
  | report_and_die => simp [leave, report_and_die]
  | ret k =>
    have := hk k rfl
    subst this
    simp [leave]
  | null_dereference => simp [leave]

/-- Where control reaches the generic fallback (`fallback_state` gives the state
reached there), the handler proceeds in this order: it calls the chained handler with
the same sig, info and machine context and returns 1 if the chain handled the signal;
otherwise it returns 0 if abort_if_unrecognized is 0; otherwise it reaches
`report_and_die`.  The handler returns 0 only there (chain declined,
abort_if_unrecognized = 0), and from the fallback it reaches `report_and_die` exactly
when the chain declined and abort_if_unrecognized is not 0. -/
theorem fallback_order (E : Env) (sig : Int) (info : Option siginfo_t) (abort : Int)
    (s : State) :
    (∀ s1, fallback_state E sig info s = some s1 →
      s1.uc = s.uc ∧
      JVM_handle_bsd_signal E sig info abort s =
        (if E.chained_handler sig info s.uc = true then
          (Exit.returned 1, { s1 with trace := s1.trace ++ [Event.chained_handler sig] })
        else if abort = 0 then
          (Exit.returned 0, { s1 with trace := s1.trace ++ [Event.chained_handler sig] })
        else
          (Exit.report_and_die,
           { s1 with
             blocked := fun x => if x = sig then false else s1.blocked x,
             trace := s1.trace ++ [Event.chained_handler sig, Event.sigprocmask_unblock sig,
               Event.VMError_report_and_die sig
                 (match s.uc with
                  | some uc => uc.mc_srr0
                  | none => 0)] }))) ∧
    ((JVM_handle_bsd_signal E sig info abort s).1 = Exit.returned 0 →
      (∃ s1, fallback_state E sig info s = some s1) ∧
      E.chained_handler sig info s.uc = false ∧ abort = 0) ∧
    (∀ s1, fallback_state E sig info s = some s1 →
      ((JVM_handle_bsd_signal E sig info abort s).1 = Exit.report_and_die ↔
        E.chained_handler sig info s.uc = false ∧ abort ≠ 0)) := by
  have P12 : (∀ s1, fallback_state E sig info s = some s1 →
      s1.uc = s.uc ∧
      JVM_handle_bsd_signal E sig info abort s =
        run_chained_handler E sig info abort
          (match s.uc with
            | some uc => uc.mc_srr0
            | none => 0) s1) ∧
      ((JVM_handle_bsd_signal E sig info abort s).1 = Exit.returned 0 →
        (∃ s1, fallback_state E sig info s = some s1) ∧
        E.chained_handler sig info s.uc = false ∧ abort = 0) := by
    obtain ⟨suc, sth, b, tr⟩ := s
    by_cases hpipe : sig = E.sigs.SIGPIPE
    · subst hpipe
      refine ⟨fun s1 h1 => by simp [fallback_state] at h1, fun h0 => ?_⟩
      simp only [JVM_handle_bsd_signal, if_true] at h0
      split_ifs at h0 <;> simp at h0
    · rw [JVM_handle_bsd_signal_eq E sig info abort suc sth b tr hpipe]
      simp only [fallback_state, if_neg hpipe, ucontext_get_pc]
      cases suc with
      | none =>
        refine ⟨fun s1 h1 => ?_, fun h0 => ?_⟩
        · simp only [Option.some.injEq] at h1
          subst h1
          exact ⟨rfl, rfl⟩
        · simp only [run_chained_handler_eq] at h0
          split_ifs at h0 <;> simp_all
      | some uc =>
        simp only
        by_cases hsf : uc.mc_srr0 ≠ 0 ∧ E.is_safefetch_fault uc.mc_srr0 = true
        · simp only [if_pos hsf]
          exact ⟨fun s1 h1 => by simp at h1, fun h0 => by simp at h0⟩
        · simp only [if_neg hsf]
          have hplain : (∀ s1, some (State.mk (some uc) sth b tr) = some s1 →
              s1.uc = some uc ∧
              run_chained_handler E sig info abort uc.mc_srr0 ⟨some uc, sth, b, tr⟩ =
                run_chained_handler E sig info abort uc.mc_srr0 s1) ∧
              ((run_chained_handler E sig info abort uc.mc_srr0 ⟨some uc, sth, b, tr⟩).1
                  = Exit.returned 0 →
                (∃ s1, some (State.mk (some uc) sth b tr) = some s1) ∧
                E.chained_handler sig info (some uc) = false ∧ abort = 0) := by
            refine ⟨fun s1 h1 => ?_, fun h0 => ?_⟩
            · simp only [Option.some.injEq] at h1
              subst h1
              exact ⟨rfl, rfl⟩
            · simp only [run_chained_handler_eq] at h0
              split_ifs at h0 <;> simp_all
          cases info with
          | none => exact hplain
          | some si =>
            cases hj : java_thread E sth with
            | none => exact hplain
            | some th =>
              obtain ⟨h1, -, -⟩ := java_thread_eq_some E sth th hj
              subst h1
              exact leave_fallback E sig (some si) abort uc.mc_srr0 uc th b tr _
                (java_thread_block_frame E sig si uc th uc.mc_srr0 b tr)
  refine ⟨fun s1 h1 => ?_, P12.2, fun s1 h1 => ?_⟩
  · obtain ⟨h2, h3⟩ := P12.1 s1 h1
    refine ⟨h2, ?_⟩
    rw [h3, run_chained_handler_eq, h2]
  · obtain ⟨h2, h3⟩ := P12.1 s1 h1
    rw [h3, run_chained_handler_eq, h2]
    split_ifs <;> simp_all

/-- Leaving a block does not change the flag pending_unsafe_access_error. -/
theorem leave_pending (E : Env) (sig : Int) (info : Option siginfo_t) (abort : Int)
    (pc : Nat) (uc : ucontext_t) (r0 : Flow × State) :
    (leave E sig info abort pc uc r0).2.thread.map (fun t => t.pending_unsafe_access_error)
      = r0.2.thread.map (fun t => t.pending_unsafe_access_error) := by
  obtain ⟨f, s1⟩ := r0
  have hrs : ∀ stub, (run_stub E sig info abort pc uc stub s1).2.thread.map
      (fun t => t.pending_unsafe_access_error)
      = s1.thread.map (fun t => t.pending_unsafe_access_error) := by
    intro stub
    simp only [run_stub, run_chained_handler_eq]
    split_ifs
    · cases hj : java_thread E s1.thread with
      | none => rfl
      | some th =>
        obtain ⟨h1, -, -⟩ := java_thread_eq_some E s1.thread th hj
        simp [h1, Thread.set_saved_exception_pc]
    all_goals rfl
  cases f with
  | run_stub stub => exact hrs stub
  | next stub => exact hrs stub
  | report_and_die => rfl
  | ret k => rfl
  | null_dereference => rfl

/-- C20, as stated, fails: a SIGBUS (10) on a Java thread in managed code whose pc 0x5000
lies in compiled code with unsafe access is resolved by unsafe-access recovery: the
handler sets pending_unsafe_access_error, moves the saved program counter to 0x5004
and returns 1. -/
theorem C20_unsafe_access_gate_counterexample :
    javaThread.thread_state = JavaThreadState._thread_in_Java ∧
    javaThread.pending_unsafe_access_error = false ∧
    (JVM_handle_bsd_signal bsdEnv 10 (some ⟨0x9000, 0⟩) 1 (entryState 0x5000 javaThread)).1
      = Exit.returned 1 ∧
    ((JVM_handle_bsd_signal bsdEnv 10 (some ⟨0x9000, 0⟩) 1
      (entryState 0x5000 javaThread)).2.uc.map fun c => c.mc_srr0) = some 0x5004 ∧
    ((JVM_handle_bsd_signal bsdEnv 10 (some ⟨0x9000, 0⟩) 1
      (entryState 0x5000 javaThread)).2.thread.map fun t => t.pending_unsafe_access_error)
      = some true := by
  decide

/-- C20, amended: unsafe-access recovery is gated by the signal kind and the execution
state.  `JVM_handle_bsd_signal` changes pending_unsafe_access_error only for a SIGBUS
on a Java thread with the machine context present, and only when the thread is in
managed code with the pc in compiled code with unsafe access, or inside the runtime
(_thread_in_vm) during an unsafe access; for a thread in native code the flag is never
changed.  In managed code the recovery does take place: for such a SIGBUS (handlers
installed, siginfo present, pc not a SafeFetch fault pc) the handler sets the flag,
resumes at pc + 4 and returns 1. -/
theorem C20_unsafe_access_gate (E : Env) (hS : E.sigs.Distinct) (sig : Int)
    (info : Option siginfo_t) (abort : Int) (suc : Option ucontext_t) (th : Thread)
    (b : Int → Bool) (tr : List Event) :
    (((JVM_handle_bsd_signal E sig info abort ⟨suc, some th, b, tr⟩).2.thread.map
        fun t => t.pending_unsafe_access_error) ≠ some th.pending_unsafe_access_error →
      sig = E.sigs.SIGBUS ∧ th.is_Java_thread = true ∧
      ∃ uc, suc = some uc ∧
        ((th.thread_state = JavaThreadState._thread_in_Java ∧
            ∃ cb, E.find_blob_unsafe uc.mc_srr0 = some cb ∧ cb.is_nmethod = true ∧
              cb.has_unsafe_access = true) ∨
          (th.thread_state = JavaThreadState._thread_in_vm ∧
            th.doing_unsafe_access = true))) ∧
    (th.thread_state = JavaThreadState._thread_in_native →
      ((JVM_handle_bsd_signal E sig info abort ⟨suc, some th, b, tr⟩).2.thread.map
        fun t => t.pending_unsafe_access_error) = some th.pending_unsafe_access_error) ∧
    (∀ si uc cb, E.signal_handlers_are_installed = true → th.is_Java_thread = true →
      ¬ (uc.mc_srr0 ≠ 0 ∧ E.is_safefetch_fault uc.mc_srr0 = true) →
      th.thread_state = JavaThreadState._thread_in_Java →
      E.find_blob_unsafe uc.mc_srr0 = some cb → cb.is_nmethod = true →
      cb.has_unsafe_access = true →
      JVM_handle_bsd_signal E E.sigs.SIGBUS (some si) abort ⟨some uc, some th, b, tr⟩ =
        (Exit.returned 1,
         ⟨some { uc with mc_srr0 := (uc.mc_srr0 + 4) % 2 ^ 64 },
          some th.set_pending_unsafe_access_error, b, tr⟩)) := by
  have P1 : ((JVM_handle_bsd_signal E sig info abort ⟨suc, some th, b, tr⟩).2.thread.map
        fun t => t.pending_unsafe_access_error) ≠ some th.pending_unsafe_access_error →
      sig = E.sigs.SIGBUS ∧ th.is_Java_thread = true ∧
      ∃ uc, suc = some uc ∧
        ((th.thread_state = JavaThreadState._thread_in_Java ∧
            ∃ cb, E.find_blob_unsafe uc.mc_srr0 = some cb ∧ cb.is_nmethod = true ∧
              cb.has_unsafe_access = true) ∨
          (th.thread_state = JavaThreadState._thread_in_vm ∧
            th.doing_unsafe_access = true)) := by
    have hchain : ∀ pc, (run_chained_handler E sig info abort pc ⟨suc, some th, b, tr⟩).2.thread
        = some th := by
      intro pc
      rw [run_chained_handler_eq]
      split_ifs <;> rfl
    by_cases hpipe : sig = E.sigs.SIGPIPE
    · intro hne
      exfalso
      apply hne
      subst hpipe
      simp only [JVM_handle_bsd_signal, if_true, State.log]
      split_ifs <;> rfl
    · rw [JVM_handle_bsd_signal_eq E sig info abort suc (some th) b tr hpipe]
      intro hne
      cases suc with
      | none => exact absurd (by rw [hchain]; rfl) hne
      | some uc =>
        simp only at hne
        by_cases hsf : uc.mc_srr0 ≠ 0 ∧ E.is_safefetch_fault uc.mc_srr0 = true
        · rw [if_pos hsf] at hne
          exact absurd rfl hne
        · rw [if_neg hsf] at hne
          cases info with
          | none => exact absurd (by rw [hchain]; rfl) hne
          | some si =>
            cases hj : java_thread E (some th) with
            | none =>
              simp only [hj] at hne
              exact absurd (by rw [hchain]; rfl) hne
            | some th0 =>
              simp only [hj] at hne
              obtain ⟨h1, h2, -⟩ := java_thread_eq_some E (some th) th0 hj
              cases h1
              rw [leave_pending] at hne
              obtain ⟨-, -, h3⟩ := java_thread_block_frame E sig si uc th uc.mc_srr0 b tr
              rcases h3 with ⟨-, th1, ht1, hp, -⟩ | ⟨hsig, hcond, -⟩
              · rw [ht1] at hne
                exact absurd (by simp [hp]) hne
              · exact ⟨hsig, h2, uc, rfl, hcond⟩
  refine ⟨P1, fun hn => ?_, ?_⟩
  · by_contra hne
    obtain ⟨-, -, uc, -, h | h⟩ := P1 hne
    · rw [hn] at h
      exact absurd h.1 (by decide)
    · rw [hn] at h
      exact absurd h.1 (by decide)
  · intro si uc cb hinst hjava hsf hst hcb hnm hua
    obtain ⟨⟨_, _, _, hBP, _⟩, ⟨_, _, _, hBI, hBT, hBS, hBF, _, _⟩, _⟩ :=
      Signals.Distinct.ne _ hS
    rw [JVM_handle_bsd_signal_java E _ si uc th b tr abort hBP hinst hjava hsf]
    simp [java_thread_block, in_Java_block, hst, hBI, hBT, hBS, hBF, hcb, hnm, hua, leave,
      ptr_add4, WORD]

/-- The fallback at a concrete input: SIGTRAP (5) on a Java thread in native code; no
rule applies, no chained handler, abort_if_unrecognized = 0. -/
theorem fallback_order_witness :
    (JVM_handle_bsd_signal bsdEnv 5 (some ⟨0, 0⟩) 0 (entryState 0x5000 nativeThread)).1
      = Exit.returned 0 :=
  (congrArg Prod.fst
    ((fallback_order bsdEnv 5 (some ⟨0, 0⟩) 0 (entryState 0x5000 nativeThread)).1
      (entryState 0x5000 nativeThread) rfl).2).trans (by decide)

/-- C12: the code at the failing input.  SIGBUS (10) on a Java thread in managed code at
pc 0x9000, for which `CodeCache::find_blob_unsafe` finds no blob: no rule of the
classifier selects a stub, returns or goes to `report_and_die` (every condition of
`managed_code_rules` fails) and the chained handler declines, so the fallback would
return 0 for abort_if_unrecognized = 0 and reach `report_and_die` otherwise.  The
handler does neither: it uses the null blob (`cb->is_nmethod()`) before the chained
handler is called. -/
theorem C12_fallback_null_blob :
    bsdEnv.find_blob_unsafe 0x9000 = none ∧
    ((managed_code_rules bsdEnv 10 ⟨0x8000, 0⟩ (contextAt 0x9000) javaThread 0x9000
        (stack_guard_compensation bsdEnv 0x8000) (entryState 0x9000 javaThread)).all
      fun r => !r.1) = true ∧
    bsdEnv.chained_handler 10 (some ⟨0x8000, 0⟩) (some (contextAt 0x9000)) = false ∧
    (JVM_handle_bsd_signal bsdEnv 10 (some ⟨0x8000, 0⟩) 0 (entryState 0x9000 javaThread)).1
      = Exit.null_dereference ∧
    (JVM_handle_bsd_signal bsdEnv 10 (some ⟨0x8000, 0⟩) 1 (entryState 0x9000 javaThread)).1
      = Exit.null_dereference ∧
    (JVM_handle_bsd_signal bsdEnv 10 (some ⟨0x8000, 0⟩) 0
      (entryState 0x9000 javaThread)).2.trace = [] := by
  decide

/-- Witness of C15: SIGSEGV (11) in the red zone of a Java thread, every signal blocked
on entry. -/
theorem C15_fatal_path_unblocks_signal_witness :
    (JVM_handle_bsd_signal bsdEnv 11 (some ⟨0xF0800, 0⟩) 0
      ⟨some (contextAt 0x5000), some javaThread, fun _ => true, []⟩).2.blocked 11 = false :=
  ((C15_fatal_path_unblocks_signal bsdEnv 11 (some ⟨0xF0800, 0⟩) 0
    ⟨some (contextAt 0x5000), some javaThread, fun _ => true, []⟩).2 (by decide)).1

/-- Witness of C20: SIGBUS (10) on a Java thread in managed code at pc 0x5000, inside
compiled code with unsafe access. -/
theorem C20_unsafe_access_gate_witness :
    (JVM_handle_bsd_signal bsdEnv bsdEnv.sigs.SIGBUS (some ⟨0x9000, 0⟩) 1
        ⟨some (contextAt 0x5000), some javaThread, fun _ => false, []⟩).1
      = Exit.returned 1 :=
  congrArg Prod.fst
    ((C20_unsafe_access_gate bsdEnv (by decide) 10 (some ⟨0x9000, 0⟩) 1
      (some (contextAt 0x5000)) javaThread (fun _ => false) []).2.2
      ⟨0x9000, 0⟩ (contextAt 0x5000) ⟨true, true⟩ (by decide) (by decide) (by decide)
      (by decide) (by decide) (by decide) (by decide))

/-! ## Properties of the decision order and of the fatal report -/

/-- A first-match list gives the result of a rule whose condition holds when the
conditions of all rules before it fail. -/
theorem first_match_earlier_wins {α : Type} (pre post : List (Bool × α)) (r d : α)
    (hpre : ∀ x ∈ pre, x.1 = false) :
    first_match (pre ++ (true, r) :: post) d = r := by
  induction pre with
  | nil => simp [first_match]
  | cons x pre ih =>
    obtain ⟨c, y⟩ := x
    have hc : c = false := hpre (c, y) (List.mem_cons_self _ _)
    subst hc
    simp only [List.cons_append, first_match]
    exact ih (fun z hz => hpre z (List.mem_cons_of_mem _ hz))

/-- C13, as stated, fails: a SIGSEGV (11) on a Java thread inside the runtime, with the
fault address 0x9000 outside the stack bounds and neither the poll page nor the
serialize page, is not fatal when the caller passes abort_if_unrecognized = 0: the
handler returns 0. -/
theorem C13_segv_in_runtime_counterexample :
    vmStateThread.thread_state = JavaThreadState._thread_in_vm ∧
    in_stack_bounds vmStateThread (stack_guard_compensation bsdEnv 0x9000) = false ∧
    bsdEnv.is_poll_address (stack_guard_compensation bsdEnv 0x9000) = false ∧
    bsdEnv.is_memory_serialize_page vmStateThread (stack_guard_compensation bsdEnv 0x9000)
      = false ∧
    (JVM_handle_bsd_signal bsdEnv 11 (some ⟨0x9000, 0⟩) 0
      (entryState 0x5000 vmStateThread)).1 = Exit.returned 0 := by
  decide

/-- C13, amended: for every SIGSEGV on a Java thread whose execution state is in_runtime
(handlers installed, siginfo and machine context present, pc not a SafeFetch fault
pc), with a fault address that after the guard-page compensation is outside the stack
bounds and not the memory-serialize page, when the chained handler declines and
abort_if_unrecognized is not 0, `JVM_handle_bsd_signal` reaches `report_and_die`
with the machine context and the thread unchanged; and what `os::print_context`
prints for that context begins with the line `Registers:`. -/
theorem C13_segv_in_runtime (E : Env) (hS : E.sigs.Distinct) (si : siginfo_t)
    (uc : ucontext_t) (th : Thread) (b : Int → Bool) (tr : List Event) (abort : Int)
    (hinst : E.signal_handlers_are_installed = true) (hjava : th.is_Java_thread = true)
    (hsf : ¬ (uc.mc_srr0 ≠ 0 ∧ E.is_safefetch_fault uc.mc_srr0 = true))
    (hstate : th.thread_state = JavaThreadState._thread_in_vm)
    (hbounds : in_stack_bounds th (stack_guard_compensation E si.si_addr) = false)
    (hser : E.is_memory_serialize_page th (stack_guard_compensation E si.si_addr) = false)
    (hchain : E.chained_handler E.sigs.SIGSEGV (some si) (some uc) = false)
    (habort : abort ≠ 0) :
    JVM_handle_bsd_signal E E.sigs.SIGSEGV (some si) abort ⟨some uc, some th, b, tr⟩ =
      (Exit.report_and_die,
       ⟨some uc, some th, fun x => if x = E.sigs.SIGSEGV then false else b x,
        tr ++ [Event.chained_handler E.sigs.SIGSEGV,
          Event.sigprocmask_unblock E.sigs.SIGSEGV,
          Event.VMError_report_and_die E.sigs.SIGSEGV uc.mc_srr0]⟩) ∧
    (print_context (some uc)).take 2 = [Out.text "Registers:", Out.cr] := by
  obtain ⟨⟨_, _, _, _, hSP⟩, ⟨_, _, _, _, _, hBS, _, hSI, _⟩, _⟩ := Signals.Distinct.ne _ hS
  refine ⟨?_, rfl⟩
  rw [JVM_handle_bsd_signal_java E _ si uc th b tr abort hSP hinst hjava hsf]
  simp [java_thread_block, not_in_Java_block, hbounds, hstate, hser, hSI, Ne.symm hBS, leave,
    run_stub, run_chained_handler, report_and_die, State.log, hchain, habort]

/-- Witness of C13: SIGSEGV (11) at 0x9000 on a Java thread inside the runtime, no chained
handler, abort_if_unrecognized = 1. -/
theorem C13_segv_in_runtime_witness :
    (JVM_handle_bsd_signal bsdEnv bsdEnv.sigs.SIGSEGV (some ⟨0x9000, 0⟩) 1
        ⟨some (contextAt 0x5000), some vmStateThread, fun _ => false, []⟩).1
      = Exit.report_and_die :=
  congrArg Prod.fst
    (C13_segv_in_runtime bsdEnv (by decide) ⟨0x9000, 0⟩ (contextAt 0x5000) vmStateThread
      (fun _ => false) [] 1 (by decide) (by decide) (by decide) (by decide) (by decide)
      (by decide) (by decide) (by decide)).1


/-! ## Properties of `vmError_bsd.cpp` and of the register dump -/

/-- C14: after `VMError::reset_signal_handlers()`, for SIGSEGV and for SIGBUS,
`get_resetted_sigflags(sig)` and `get_resetted_sighandler(sig)` return the flags and
the handler that were in force for the signal before the call (the handler is
sa_sigaction when those flags contain SA_SIGINFO, sa_handler otherwise), although the
call has installed the crash handler for both; both dispositions are read before
either handler is installed. -/
theorem C14_reset_saves_prior_disposition (V : VmErrorEnv) (hS : V.sigs.Distinct)
    (s : VmErrorState) :
    get_resetted_sigflags V V.sigs.SIGSEGV (reset_signal_handlers V s)
      = ((s.disposition V.sigs.SIGSEGV).sa_flags : Int) ∧
    get_resetted_sigflags V V.sigs.SIGBUS (reset_signal_handlers V s)
      = ((s.disposition V.sigs.SIGBUS).sa_flags : Int) ∧
    get_resetted_sighandler V V.sigs.SIGSEGV (reset_signal_handlers V s)
      = (if (s.disposition V.sigs.SIGSEGV).sa_flags &&& V.SA_SIGINFO ≠ 0
          then (s.disposition V.sigs.SIGSEGV).sa_sigaction
          else (s.disposition V.sigs.SIGSEGV).sa_handler) ∧
    get_resetted_sighandler V V.sigs.SIGBUS (reset_signal_handlers V s)
      = (if (s.disposition V.sigs.SIGBUS).sa_flags &&& V.SA_SIGINFO ≠ 0
          then (s.disposition V.sigs.SIGBUS).sa_sigaction
          else (s.disposition V.sigs.SIGBUS).sa_handler) ∧
    ((reset_signal_handlers V s).disposition V.sigs.SIGSEGV).sa_handler = V.crash_handler ∧
    ((reset_signal_handlers V s).disposition V.sigs.SIGBUS).sa_handler = V.crash_handler ∧
    (reset_signal_handlers V s).calls = s.calls ++
      [VmErrorCall.sigaction_query V.sigs.SIGSEGV, VmErrorCall.sigaction_query V.sigs.SIGBUS,
       VmErrorCall.os_signal V.sigs.SIGSEGV V.crash_handler,
       VmErrorCall.os_signal V.sigs.SIGBUS V.crash_handler] := by
  obtain ⟨-, ⟨_, _, _, _, _, hBS, _, _, _⟩, -⟩ := Signals.Distinct.ne _ hS
  have hSB : V.sigs.SIGSEGV ≠ V.sigs.SIGBUS := fun h => hBS h.symm
  simp [reset_signal_handlers, save_signal, os_signal_disposition, get_resetted_sigflags,
    get_resetted_sighandler, hSB, hBS]

/-- Witness of C14: on FreeBSD, SIGSEGV handled by 0x1000 with SA_SIGINFO (0x40) set,
SIGBUS at its default. -/
theorem C14_reset_saves_prior_disposition_witness :
    get_resetted_sighandler ⟨bsdSignals, 0x40, 0x9000, 0x42⟩ 11
      (reset_signal_handlers ⟨bsdSignals, 0x40, 0x9000, 0x42⟩
        { disposition := fun x => if x = 11 then ⟨0x40, 0x2000, 0x1000⟩ else ⟨0, 0, 0⟩,
          resettedSigflags := fun _ => 0, resettedSighandler := fun _ => 0, calls := [] })
      = 0x1000 :=
  (C14_reset_saves_prior_disposition ⟨bsdSignals, 0x40, 0x9000, 0x42⟩ (by decide)
    { disposition := fun x => if x = 11 then ⟨0x40, 0x2000, 0x1000⟩ else ⟨0, 0, 0⟩,
      resettedSigflags := fun _ => 0, resettedSighandler := fun _ => 0,
      calls := [] }).2.2.1.trans (by decide)

/-- C17, as stated, fails: on a FreeBSD build, for the process 4821 running
`/opt/runtime/bin/engine` with the query succeeding, a buffer of 8 characters receives
`gdb /op`, which has neither the path of the executable nor a process id; so does
the other branch, which leaves `gdb /pr`.  With a buffer length of 0 nothing is
written, and `VMError::show_message_box` runs the text the buffer held before. -/
theorem C17_debugger_command_counterexample :
    set_debugger true 4821 0 24 "/opt/runtime/bin/engine".toList 8 = some "gdb /op".toList ∧
    set_debugger false 4821 0 24 "/opt/runtime/bin/engine".toList 8
      = some "gdb /pr".toList ∧
    set_debugger true 4821 0 24 "/opt/runtime/bin/engine".toList 0 = none ∧
    show_message_box true 4821 0 24 "/opt/runtime/bin/engine".toList 0 "ls".toList true
      = some "ls".toList := by
  decide

/-- C17, amended: provided it fits the buffer (its length is below `buflen`, an `int`),
the command composed by `set_debugger`, and run by `VMError::show_message_box` when
the user confirms, is `gdb`, one blank, a second field, one blank, the decimal id of
the current process.  The second field names the executable of the running process:
on a FreeBSD build when the query succeeds with a length above 0 it is the path the
query wrote, up to that length; on every other build, and when the query fails, it is
the procfs name `/proc/<pid>/file`.  When the user declines nothing is run. -/
theorem C17_debugger_command (FreeBSD : Bool) (pid : Int) (sysctl_ret : Int) (len : Nat)
    (cmd : List Char) (buflen : Int) (prior : List Char)
    (hint : buflen ≤ 2147483647)
    (hfit : ((GDB_CMD ++ " ".toList ++
        (if FreeBSD = true ∧ sysctl_ret = 0 ∧ len > 0 then cmd.take len
         else "/proc/".toList ++ decimal pid ++ "/file".toList) ++
        " ".toList ++ decimal pid).length : Int) < buflen) :
    set_debugger FreeBSD pid sysctl_ret len cmd buflen =
      some (GDB_CMD ++ " ".toList ++
        (if FreeBSD = true ∧ sysctl_ret = 0 ∧ len > 0 then cmd.take len
         else "/proc/".toList ++ decimal pid ++ "/file".toList) ++
        " ".toList ++ decimal pid) ∧
    show_message_box FreeBSD pid sysctl_ret len cmd buflen prior true =
      some (GDB_CMD ++ " ".toList ++
        (if FreeBSD = true ∧ sysctl_ret = 0 ∧ len > 0 then cmd.take len
         else "/proc/".toList ++ decimal pid ++ "/file".toList) ++
        " ".toList ++ decimal pid) ∧
    show_message_box FreeBSD pid sysctl_ret len cmd buflen prior false = none := by
  have hpos : 0 < buflen := lt_of_le_of_lt (Int.ofNat_nonneg _) hfit
  have hmod : buflen % 2 ^ 64 = buflen := Int.emod_eq_of_lt (le_of_lt hpos) (by omega)
  have hset : set_debugger FreeBSD pid sysctl_ret len cmd buflen =
      some (GDB_CMD ++ " ".toList ++
        (if FreeBSD = true ∧ sysctl_ret = 0 ∧ len > 0 then cmd.take len
         else "/proc/".toList ++ decimal pid ++ "/file".toList) ++
        " ".toList ++ decimal pid) := by
    unfold set_debugger jio_snprintf
    rw [hmod]
    have h1 : ¬ (buflen.toNat = 0 ∨ 2 ^ 63 ≤ buflen.toNat) := by omega
    by_cases c : FreeBSD = true ∧ sysctl_ret = 0 ∧ len > 0
    · rw [if_pos c] at hfit ⊢
      rw [if_pos c, if_neg h1, List.take_of_length_le (by omega)]
    · rw [if_neg c] at hfit ⊢
      rw [if_neg c, if_neg h1]
      have e : GDB_CMD ++ " /proc/".toList ++ decimal pid ++ "/file ".toList ++ decimal pid
          = GDB_CMD ++ " ".toList ++ ("/proc/".toList ++ decimal pid ++ "/file".toList) ++
            " ".toList ++ decimal pid := by
        simp [List.append_assoc]
      rw [e, List.take_of_length_le (by omega)]
  refine ⟨hset, ?_, rfl⟩
  simp only [show_message_box, hset, if_true, Option.getD_some]

/-- Witness of C17: a FreeBSD build, process 4821 running `/opt/runtime/bin/engine`, the
query succeeding, a buffer of 2000 characters. -/
theorem C17_debugger_command_witness :
    set_debugger true 4821 0 24 "/opt/runtime/bin/engine".toList 2000
      = some "gdb /opt/runtime/bin/engine 4821".toList :=
  (C17_debugger_command true 4821 0 24 "/opt/runtime/bin/engine".toList 2000 []
    (by decide) (by decide)).1.trans (by decide)


/-- C16: for every machine context that is not null, `os::print_context` emits the
crash-report layout in this order: the line `Registers:`; one row with pc, lr and ctr;
the 32 general registers r0..r31 in ascending order, three per row (a line break after
each register whose index i has i mod 3 = 2: ten full rows, then a row with r30 and
r31), each labelled 'r', the decimal index left-justified to width 2, '='; then the
header `Top of Stack: (sp=...)` with the dump of the 128 machine words from sp; then
the header `Instructions: (pc=...)` with the dump of the bytes from pc - 64 to
pc + 64 in units of 4 bytes. -/
theorem C16_print_context_layout (uc : ucontext_t) :
    print_context (some uc) = crash_report_layout uc ∧
    (List.range 32).map register_label =
      ["r0 =", "r1 =", "r2 =", "r3 =", "r4 =", "r5 =", "r6 =", "r7 =", "r8 =", "r9 =",
       "r10=", "r11=", "r12=", "r13=", "r14=", "r15=", "r16=", "r17=", "r18=", "r19=",
       "r20=", "r21=", "r22=", "r23=", "r24=", "r25=", "r26=", "r27=", "r28=", "r29=",
       "r30=", "r31="] := by
  constructor
  · rfl
  · decide


/-! ## Properties of the serialize page and of SafeFetch -/

/-- C21, as stated, fails: a SIGBUS (10) on a Java thread in native code whose fault
address 0x30000 is the memory-serialize page does not block and retry: with no chained
handler and abort_if_unrecognized = 1 the handler calls the chained handler and
reaches `report_and_die`. -/
theorem C21_serialize_page_counterexample :
    nativeThread.is_Java_thread = true ∧
    bsdEnv.is_memory_serialize_page nativeThread (stack_guard_compensation bsdEnv 0x30000)
      = true ∧
    (JVM_handle_bsd_signal bsdEnv 10 (some ⟨0x30000, 0⟩) 1
      (entryState 0x5000 nativeThread)).1 = Exit.report_and_die ∧
    (JVM_handle_bsd_signal bsdEnv 10 (some ⟨0x30000, 0⟩) 1
      (entryState 0x5000 nativeThread)).2.trace =
        [Event.chained_handler 10, Event.sigprocmask_unblock 10,
          Event.VMError_report_and_die 10 0x5000] := by
  decide

/-- C21, amended: for every SIGSEGV on a Java thread (handlers installed, siginfo and
machine context present, pc not a SafeFetch fault pc) whose fault address, after the
guard-page compensation, is outside the stack bounds, is the memory-serialize page
and, for a thread in managed code, is not the poll page, in any execution state
`JVM_handle_bsd_signal` calls `os::block_on_serialize_page_trap` and returns 1 with
the machine context (the saved program counter is the faulting pc) and the thread
unchanged; it neither calls the chained handler nor reaches `report_and_die`.  This
holds also when the SIGSEGV implicit null check applies: the continuation is
requested, then dropped. -/
theorem C21_serialize_page (E : Env) (hS : E.sigs.Distinct) (si : siginfo_t)
    (uc : ucontext_t) (th : Thread) (b : Int → Bool) (tr : List Event) (abort : Int)
    (hinst : E.signal_handlers_are_installed = true) (hjava : th.is_Java_thread = true)
    (hsf : ¬ (uc.mc_srr0 ≠ 0 ∧ E.is_safefetch_fault uc.mc_srr0 = true))
    (hbounds : in_stack_bounds th (stack_guard_compensation E si.si_addr) = false)
    (hser : E.is_memory_serialize_page th (stack_guard_compensation E si.si_addr) = true)
    (hpoll : th.thread_state = JavaThreadState._thread_in_Java →
      E.is_poll_address (stack_guard_compensation E si.si_addr) = false) :
    JVM_handle_bsd_signal E E.sigs.SIGSEGV (some si) abort ⟨some uc, some th, b, tr⟩ =
      (Exit.returned 1,
       ⟨some uc, some th, b,
        tr ++
          (if th.thread_state = JavaThreadState._thread_in_Java ∧
              E.ImplicitNullChecks = true ∧ E.CodeCache_contains uc.mc_srr0 = true ∧
              E.needs_explicit_null_check si.si_addr = false
            then (if E.TraceTraps = true
                then [Event.tty "trap: null_check at %p (SIGSEGV)"] else []) ++
              [Event.continuation_for_implicit_exception uc.mc_srr0
                ImplicitExceptionKind.IMPLICIT_NULL]
            else []) ++
          [Event.block_on_serialize_page_trap]⟩) := by
  obtain ⟨⟨_, _, _, _, hSP⟩, ⟨_, _, hFS, _, _, hBS, _, hSI, hST⟩, _⟩ := Signals.Distinct.ne _ hS
  rw [JVM_handle_bsd_signal_java E _ si uc th b tr abort hSP hinst hjava hsf]
  by_cases hst : th.thread_state = JavaThreadState._thread_in_Java
  · have hp := hpoll hst
    by_cases hn : E.ImplicitNullChecks = true ∧ E.CodeCache_contains uc.mc_srr0 = true ∧
        E.needs_explicit_null_check si.si_addr = false
    · cases hT : E.TraceTraps <;>
        simp [java_thread_block, in_Java_block, hbounds, hst, hp, hser, hSI, hST, hn, leave,
          State.log, State.trace_trap, hT]
    · cases hT : E.TraceTraps <;>
        simp [java_thread_block, in_Java_block, hbounds, hst, hp, hser, hSI, hST, hn, leave,
          State.log, State.trace_trap, hT, Ne.symm hFS, Ne.symm hBS]
  · simp [java_thread_block, not_in_Java_block, hbounds, hst, hser, hSI, Ne.symm hBS, leave,
      State.log]

/-- Witness of C21: SIGSEGV (11) at the serialize page 0x30000, Java thread inside the
runtime. -/
theorem C21_serialize_page_witness :
    (JVM_handle_bsd_signal bsdEnv bsdEnv.sigs.SIGSEGV (some ⟨0x30000, 0⟩) 1
        ⟨some (contextAt 0x5000), some vmStateThread, fun _ => false, []⟩).1
      = Exit.returned 1 :=
  congrArg Prod.fst
    (C21_serialize_page bsdEnv (by decide) ⟨0x30000, 0⟩ (contextAt 0x5000) vmStateThread
      (fun _ => false) [] 1 (by decide) (by decide) (by decide) (by decide) (by decide)
      (by decide))

/-- C22: for every signal other than SIGPIPE, if the machine context is present, its pc is
not null and `StubRoutines::is_safefetch_fault(pc)` holds, `JVM_handle_bsd_signal`
sets the saved program counter to `continuation_for_safefetch_fault(pc)` and returns
1, whatever the siginfo and the thread are (absent, null, not a Java or VM thread);
nothing else changes: the thread (guard zone state, saved_exception_pc,
pending_unsafe_access_error), the blocked set and the trace are as before. -/
theorem C22_safefetch_first (E : Env) (sig : Int) (info : Option siginfo_t) (abort : Int)
    (s : State) (uc : ucontext_t)
    (hpipe : sig ≠ E.sigs.SIGPIPE) (huc : s.uc = some uc) (hpc : uc.mc_srr0 ≠ 0)
    (hsf : E.is_safefetch_fault uc.mc_srr0 = true) :
    JVM_handle_bsd_signal E sig info abort s =
      (Exit.returned 1,
       { s with uc := some { uc with
           mc_srr0 := E.continuation_for_safefetch_fault uc.mc_srr0 } }) ∧
    (JVM_handle_bsd_signal E sig info abort s).2.thread = s.thread ∧
    (JVM_handle_bsd_signal E sig info abort s).2.blocked = s.blocked ∧
    (JVM_handle_bsd_signal E sig info abort s).2.trace = s.trace := by
  have h : JVM_handle_bsd_signal E sig info abort s =
      (Exit.returned 1,
       { s with uc := some { uc with
           mc_srr0 := E.continuation_for_safefetch_fault uc.mc_srr0 } }) := by
    simp only [JVM_handle_bsd_signal, if_neg hpipe, huc, ucontext_get_pc]
    rw [if_pos ⟨hpc, hsf⟩]
  rw [h]
  exact ⟨rfl, rfl, rfl, rfl⟩

/-- Witness of C22: SIGSEGV (11) at the SafeFetch fault pc 0x4000, the siginfo absent and
no current thread. -/
theorem C22_safefetch_first_witness :
    (JVM_handle_bsd_signal bsdEnv 11 none 1
        ⟨some (contextAt 0x4000), none, fun _ => false, []⟩).1 = Exit.returned 1 :=
  congrArg Prod.fst
    (C22_safefetch_first bsdEnv 11 none 1 ⟨some (contextAt 0x4000), none, fun _ => false, []⟩
      (contextAt 0x4000) (by decide) rfl (by decide) (by decide)).1


/-! ## Properties of the signal names and of the launcher's counter -/

/-- Lower case after upper case is lower case. -/
theorem toLower_toUpper (c : Char) : c.toUpper.toLower = c.toLower := by
  by_cases h : 97 ≤ c.toNat ∧ c.toNat ≤ 122
  · have hc : c = Char.ofNat c.toNat := (Char.ofNat_toNat c).symm
    obtain ⟨h1, h2⟩ := h
    generalize c.toNat = n at hc h1 h2
    subst hc
    interval_cases n <;> decide
  · have : c.toUpper = c := by
      unfold Char.toUpper
      exact if_neg h
    rw [this]

/-- A name equals its upper-case form up to case. -/
theorem strcasecmp_eq_upper (a b : List Char) :
    strcasecmp_eq (a.map Char.toUpper) b = strcasecmp_eq a b := by
  unfold strcasecmp_eq
  rw [List.map_map]
  have : (Char.toLower ∘ Char.toUpper) = Char.toLower := by
    funext c
    exact toLower_toUpper c
  rw [this]

/-- The loop of `JVM_FindSignal` returns the least index that matches, and -1 if there
is none. -/
theorem JVM_FindSignal_from_spec (N : SignalNames) (name : List Char) (k i : Nat) :
    (JVM_FindSignal_from N name k i = -1 ∧
      ∀ j : Nat, i ≤ j → j < i + k → strcasecmp_eq name (N.sys_signame j) = false) ∨
    (∃ j : Nat, JVM_FindSignal_from N name k i = (j : Int) ∧ i ≤ j ∧ j < i + k ∧
      strcasecmp_eq name (N.sys_signame j) = true ∧
      ∀ j0 : Nat, i ≤ j0 → j0 < j → strcasecmp_eq name (N.sys_signame j0) = false) := by
  induction k generalizing i with
  | zero =>
    left
    exact ⟨rfl, fun j h1 h2 => by omega⟩
  | succ k ih =>
    unfold JVM_FindSignal_from
    by_cases hm : strcasecmp_eq name (N.sys_signame i) = true
    · right
      rw [if_pos hm]
      exact ⟨i, rfl, le_refl _, by omega, hm, fun j0 h1 h2 => by omega⟩
    · rw [if_neg hm]
      have hm0 : strcasecmp_eq name (N.sys_signame i) = false := by
        simpa using hm
      rcases ih (i + 1) with ⟨h1, h2⟩ | ⟨j, h1, h2, h3, h4, h5⟩
      · left
        refine ⟨h1, fun j hj1 hj2 => ?_⟩
        by_cases hji : j = i
        · rw [hji]
          exact hm0
        · exact h2 j (by omega) (by omega)
      · right
        refine ⟨j, h1, by omega, by omega, h4, fun j0 hj1 hj2 => ?_⟩
        by_cases hji : j0 = i
        · rw [hji]
          exact hm0
        · exact h5 j0 (by omega) hj2

/-- C23, as stated, fails: on FreeBSD, for signal 11 (name `segv`, 4 characters) and a
buffer of length 4, `signal_name` returns true and leaves `SIG` in the buffer, not
`SIG` followed by the upper-cased name; with a length of 0 it returns true and writes
nothing. -/
theorem C23_signal_name_counterexample :
    ((0 : Int) < 11 ∧ (11 : Int) < (bsdSignalNames.NSIG : Int) ∧
      (bsdSignalNames.sys_signame 11).length ≤ 7) ∧
    signal_name bsdSignalNames 11 4 = (true, some "SIG".toList) ∧
    signal_name bsdSignalNames 11 4 ≠ (true, some "SIGSEGV".toList) ∧
    signal_name bsdSignalNames 11 0 = (true, none) := by
  decide

/-- C23, amended: for every signo with 0 < signo < NSIG whose `sys_signame` entry has at
most 7 characters, `signal_name(signo, buf, len)` returns true for every len; it writes
`SIG` followed by the upper-cased name when len is below 2^63 and exceeds the length
of that name by at least 4; for any other len it writes the first len - 1 characters
of that text when 0 < len < 2^63, and nothing when len is 0 or at least 2^63.
`JVM_FindSignal` applied to the upper-cased name of any signo with 0 < signo < NSIG
returns the least index i in [1, NSIG) whose `sys_signame[i]` equals the name up to
case, which is signo itself when the names differ up to case.  `signal_name` returns
false and writes nothing for signo <= 0 or signo >= NSIG, and `JVM_FindSignal`
returns -1 for a name that matches no entry. -/
theorem C23_signal_name_find_signal (N : SignalNames) :
    (∀ signo len : Nat, 0 < signo → signo < N.NSIG →
      (N.sys_signame signo).length ≤ 7 →
      signal_name N (signo : Int) len =
        (true,
         if len = 0 ∨ 2 ^ 63 ≤ len then none
         else some
           (("SIG".toList ++ (N.sys_signame signo).map Char.toUpper).take (len - 1)))) ∧
    (∀ signo len : Nat, 0 < signo → signo < N.NSIG →
      (N.sys_signame signo).length ≤ 7 → (N.sys_signame signo).length + 4 ≤ len →
      len < 2 ^ 63 →
      signal_name N (signo : Int) len =
        (true, some ("SIG".toList ++ (N.sys_signame signo).map Char.toUpper))) ∧
    (∀ signo : Nat, 0 < signo → signo < N.NSIG →
      ∃ i : Nat, JVM_FindSignal N ((N.sys_signame signo).map Char.toUpper) = (i : Int) ∧
        1 ≤ i ∧ i ≤ signo ∧
        strcasecmp_eq (N.sys_signame signo) (N.sys_signame i) = true ∧
        (∀ j : Nat, 1 ≤ j → j < i →
          strcasecmp_eq (N.sys_signame signo) (N.sys_signame j) = false) ∧
        ((∀ j : Nat, 1 ≤ j → j < N.NSIG → j ≠ signo →
          strcasecmp_eq (N.sys_signame signo) (N.sys_signame j) = false) → i = signo)) ∧
    (∀ (signo : Int) (len : Nat), signo ≤ 0 ∨ signo ≥ (N.NSIG : Int) →
      signal_name N signo len = (false, none)) ∧
    (∀ name : List Char,
      (∀ j : Nat, 1 ≤ j → j < N.NSIG → strcasecmp_eq name (N.sys_signame j) = false) →
      JVM_FindSignal N name = -1) := by
  have hgen : ∀ signo len : Nat, 0 < signo → signo < N.NSIG →
      (N.sys_signame signo).length ≤ 7 →
      signal_name N (signo : Int) len =
        (true,
         if len = 0 ∨ 2 ^ 63 ≤ len then none
         else some
           (("SIG".toList ++ (N.sys_signame signo).map Char.toUpper).take (len - 1))) := by
    intro signo len h0 h1 h7
    have hr : ¬ ((signo : Int) ≤ 0 ∨ (signo : Int) ≥ (N.NSIG : Int)) := by omega
    simp only [signal_name, if_neg hr, Int.toNat_ofNat, jio_snprintf]
    rw [List.take_of_length_le h7]
  refine ⟨hgen, ?_, ?_, ?_, ?_⟩
  · intro signo len h0 h1 h7 hlen hlt
    rw [hgen signo len h0 h1 h7]
    have hc : ¬ (len = 0 ∨ 2 ^ 63 ≤ len) := by omega
    rw [if_neg hc, List.take_of_length_le]
    simp only [List.length_append, List.length_map]
    have : "SIG".toList.length = 3 := by decide
    omega
  · intro signo h0 h1
    have hself : strcasecmp_eq ((N.sys_signame signo).map Char.toUpper) (N.sys_signame signo)
        = true := by
      rw [strcasecmp_eq_upper]
      simp [strcasecmp_eq]
    rcases JVM_FindSignal_from_spec N ((N.sys_signame signo).map Char.toUpper) (N.NSIG - 1) 1
      with ⟨-, h2⟩ | ⟨j, h2, h3, h4, h5, h6⟩
    · have := h2 signo (by omega) (by omega)
      rw [hself] at this
      exact absurd this (by decide)
    · have hle : j ≤ signo := by
        by_contra hlt
        have := h6 signo (by omega) (by omega)
        rw [hself] at this
        exact absurd this (by decide)
      rw [strcasecmp_eq_upper] at h5
      refine ⟨j, h2, h3, hle, h5, fun j0 hj1 hj2 => ?_, fun hd => ?_⟩
      · have := h6 j0 hj1 hj2
        rwa [strcasecmp_eq_upper] at this
      · by_contra hne
        have := hd j h3 (by omega) hne
        rw [h5] at this
        exact absurd this (by decide)
  · intro signo len h
    simp only [signal_name, if_pos h]
  · intro name h
    rcases JVM_FindSignal_from_spec N name (N.NSIG - 1) 1 with ⟨h2, -⟩ | ⟨j, -, h3, h4, h5, -⟩
    · exact h2
    · have := h j h3 (by omega)
      rw [h5] at this
      exact absurd this (by decide)

/-- Witness of C23: signal 11 of FreeBSD with a buffer of 16 characters. -/
theorem C23_signal_name_find_signal_witness :
    signal_name bsdSignalNames ((11 : Nat) : Int) 16 = (true, some "SIGSEGV".toList) :=
  ((C23_signal_name_find_signal bsdSignalNames).2.1 11 16 (by decide) (by decide) (by decide)
    (by decide) (by decide)).trans (by decide)

/-- C24: the code at the failing input.  With `HAVE_GETHRTIME` the counter is in
microseconds: `Counter2Micros(CounterGet())` is the reading in whole microseconds.
With the replacement macro of the `__FreeBSD__` branch it is not: for the reading
1 s + 500000000 ns, `gethrtime()` is 1500000 (microseconds, not nanoseconds), and
`Counter2Micros(CounterGet())` is 1500, while the reading is 1500000 whole
microseconds. -/
theorem C24_counter_unit :
    (∀ (FreeBSD : Bool) (t : timespec),
      Counter2Micros true FreeBSD (CounterGet true FreeBSD t) = whole_microseconds t) ∧
    gethrtime false ⟨1, 500000000⟩ = 1500000 ∧
    nanoseconds ⟨1, 500000000⟩ = 1500000000 ∧
    Counter2Micros false true (CounterGet false true ⟨1, 500000000⟩) = 1500 ∧
    whole_microseconds ⟨1, 500000000⟩ = 1500000 := by
  refine ⟨fun fb t => ?_, by decide, by decide, by decide, by decide⟩
  simp [Counter2Micros, CounterGet, gethrtime, whole_microseconds]


end Hotspot
